import Mathlib

/-!
# Verification of the Fruit Land tile-movement engine (esp32-fruitland)

Shallow embedding of the game-state manipulating core of `src/main/fruit.c`
and of the accelerometer input state machine of `src/main/accelerometer.c`.

Modelling conventions:
* C `int` fields are modelled as `Int`; the microsecond timestamps
  (`uint64_t`) as `Nat` (the monotonic clock never wraps in practice, and C
  unsigned subtraction of a later from an earlier time never occurs on the
  executed paths, matching truncated `Nat` subtraction).
* The 15×11 tile grid `level_data` is a total function `Fin 165 → Int`;
  C array accesses are modelled by `gridGet`/`gridSet`, which are total
  (out-of-range access in C is undefined behaviour; the bounds invariant
  claim C8 shows the indices stay in range).
* Rendering, logging and SDL calls have no game-state effect and are omitted.
* The float interpolation `start + (int)((target-start)*progress)` is
  modelled with exact integer arithmetic truncated towards zero; no claim
  depends on the interpolated pixel values.
-/

set_option maxHeartbeats 1000000
set_option maxRecDepth 16384

/-- `LEVEL_WIDTH` from fruit.c. -/
def LEVEL_WIDTH : Int := 15

/-- `LEVEL_HEIGHT` from fruit.c. -/
def LEVEL_HEIGHT : Int := 11

/-- `TILE_MOVEMENT_DURATION_US` from fruit.c (ESP32-S3 configuration). -/
def TILE_MOVEMENT_DURATION_US : Nat := 120000

/-- Direction constant `UP` from fruit.c. -/
def UP : Int := 1

/-- Direction constant `DOWN` from fruit.c. -/
def DOWN : Int := 2

/-- Direction constant `LEFT` from fruit.c. -/
def LEFT : Int := 3

/-- Direction constant `RIGHT` from fruit.c. -/
def RIGHT : Int := 4

/-- The game grid `level_data`: 15 * 11 = 165 tile codes. -/
abbrev Grid := Fin 165 → Int

/-- The `OBJECT` struct of fruit.c (game entity). -/
structure OBJECT where
  dx : Int
  dy : Int
  x : Int
  y : Int
  dir : Int
  step : Int
  l : Int
  sx : Int
  sy : Int
  target_dx : Int
  target_dy : Int
  start_x : Int
  start_y : Int
  target_x : Int
  target_y : Int
  movement_start_time : Nat
  is_moving : Bool
  current_frame : Int
  last_anim_time : Nat
  base_sy : Int
deriving Repr, DecidableEq

/-- The all-zero `OBJECT` produced by `memset(objects, 0, ...)`. -/
def zeroObject : OBJECT :=
  { dx := 0, dy := 0, x := 0, y := 0, dir := 0, step := 0, l := 0, sx := 0,
    sy := 0, target_dx := 0, target_dy := 0, start_x := 0, start_y := 0,
    target_x := 0, target_y := 0, movement_start_time := 0, is_moving := false,
    current_frame := 0, last_anim_time := 0, base_sy := 0 }

/-- Snapshot of the digital key state read by `move_player`
(`keyboard_state[SDL_SCANCODE_...]`). -/
structure Keys where
  up : Bool
  down : Bool
  left : Bool
  right : Bool
  escape : Bool
  f2 : Bool
  f3 : Bool
deriving Repr, DecidableEq

/-- All keys released. -/
def noKeys : Keys :=
  { up := false, down := false, left := false, right := false,
    escape := false, f2 := false, f3 := false }

/-- The mutable game state of fruit.c: the grid, the 16 object slots and the
game counters, together with the function-static edge-detection flags of the
F2/F3 handling in `move_player`. -/
structure GameState where
  level_data : Grid
  objects : Fin 16 → OBJECT
  av_time : Int
  score : Int
  level : Int
  lives : Int
  fruit : Int
  dead : Int
  freeze_enemy : Int
  level_change_requested : Int
  f2_pressed : Bool
  f3_pressed : Bool

/-- Linear index `x + y * LEVEL_WIDTH` used for all `level_data` accesses. -/
def gridIdx (x y : Int) : Int := x + y * LEVEL_WIDTH

/-- Read `level_data[i]` (total model of the C array read). -/
def gridGet (g : Grid) (i : Int) : Int :=
  if h : 0 ≤ i ∧ i < 165 then g ⟨i.toNat, by omega⟩ else 0

/-- Write `level_data[i] = v` (total model of the C array write). -/
def gridSet (g : Grid) (i : Int) (v : Int) : Grid :=
  if 0 ≤ i ∧ i < 165 then
    fun j => if (j : Nat) = i.toNat then v else g j
  else g

/-- Replace object slot `i`. -/
def setObj (s : GameState) (i : Fin 16) (o : OBJECT) : GameState :=
  { s with objects := fun j => if j = i then o else s.objects j }

theorem setObj_objects (s : GameState) (i : Fin 16) (o : OBJECT) (j : Fin 16) :
    (setObj s i o).objects j = if j = i then o else s.objects j := rfl

theorem setObj_level_data (s : GameState) (i : Fin 16) (o : OBJECT) :
    (setObj s i o).level_data = s.level_data := rfl

/-- `is_passable` from fruit.c: passability class of a tile code. -/
def is_passable (tile_type : Int) : Bool :=
  tile_type == 0 || tile_type == 1 || tile_type == 4 || tile_type == 5 ||
  tile_type == 6 || tile_type == 7 || tile_type == 8 || tile_type == 9 ||
  tile_type == 10 || tile_type == 12 || tile_type == 81

/-- The linear scan of `teleport` looking for the first cell holding tile
code 6. -/
def findTeleporter (g : Grid) : Option (Fin 165) :=
  (List.finRange 165).find? (fun c => g c == 6)

/-- `teleport` from fruit.c: clear the player's cell, then relocate the
player to the first remaining cell holding tile code 6 and clear it; if no
such cell exists the player stays put (only a warning is logged). -/
def teleport (s : GameState) : GameState :=
  let p := s.objects 0
  let g := gridSet s.level_data (gridIdx p.dx p.dy) 0
  match findTeleporter g with
  | some c =>
      let cv : Int := (c : Nat)
      let p2 := { p with dx := cv % 15, dy := cv / 15,
                         x := (cv % 15) * 16 + 8, y := (cv / 15) * 16 + 8 }
      { setObj s 0 p2 with level_data := gridSet g cv 0 }
  | none => { s with level_data := g }

/-- One swap of the `turn_screen` flip loop:
`temp = level_data[a]; level_data[a] = level_data[b]; level_data[b] = temp`. -/
def swapCells (g : Grid) (a b : Nat) : Grid :=
  fun j => if (j : Nat) = a then (if h : b < 165 then g ⟨b, h⟩ else 0)
           else if (j : Nat) = b then (if h : a < 165 then g ⟨a, h⟩ else 0)
           else g j

/-- The (top,bottom) index pairs visited by the nested swap loop of
`turn_screen`: `y` from 0 to 4, `x` from 0 to 14,
`top = y*15 + x`, `bottom = (10-y)*15 + x`. -/
def flipPairs : List (Nat × Nat) :=
  ((List.range 5).map (fun y =>
    (List.range 15).map (fun x => (y * 15 + x, (10 - y) * 15 + x)))).flatten

/-- The grid part of `turn_screen`: perform all the row swaps. -/
def flipGrid (g : Grid) : Grid :=
  flipPairs.foldl (fun acc p => swapCells acc p.1 p.2) g

/-- Index of the vertically mirrored cell. -/
def mirrorIdx (j : Fin 165) : Fin 165 :=
  ⟨(j : Nat) % 15 + (10 - (j : Nat) / 15) * 15, by omega⟩

/-- The permutation of indices effected by one swap of the flip loop. -/
def swapIdx (p : Nat × Nat) (j : Fin 165) : Fin 165 :=
  if (j : Nat) = p.1 then (if h : p.2 < 165 then ⟨p.2, h⟩ else j)
  else if (j : Nat) = p.2 then (if h : p.1 < 165 then ⟨p.1, h⟩ else j)
  else j

theorem swapCells_apply (g : Grid) (a b : Nat) (ha : a < 165) (hb : b < 165)
    (j : Fin 165) : swapCells g a b j = g (swapIdx (a, b) j) := by
  unfold swapCells swapIdx
  dsimp only
  by_cases h1 : (j : Nat) = a
  · rw [if_pos h1, if_pos h1, dif_pos hb, dif_pos hb]
  · rw [if_neg h1, if_neg h1]
    by_cases h2 : (j : Nat) = b
    · rw [if_pos h2, if_pos h2, dif_pos ha, dif_pos ha]
    · rw [if_neg h2, if_neg h2]

theorem foldl_swap (l : List (Nat × Nat)) :
    (∀ p ∈ l, p.1 < 165 ∧ p.2 < 165) → ∀ (g : Grid) (j : Fin 165),
    (l.foldl (fun acc p => swapCells acc p.1 p.2) g) j =
      g (l.foldr swapIdx j) := by
  induction l with
  | nil => intro _ g j; rfl
  | cons p t ih =>
      intro hl g j
      obtain ⟨a, b⟩ := p
      have hp := hl (a, b) (List.mem_cons_self _ _)
      simp only [List.foldl, List.foldr]
      rw [ih (fun q hq => hl q (List.mem_cons_of_mem _ hq)) (swapCells g a b) j]
      exact swapCells_apply g a b hp.1 hp.2 _

theorem mirrorIdx_eq_foldr : ∀ j : Fin 165,
    flipPairs.foldr swapIdx j = mirrorIdx j := by
  decide

theorem flipGrid_apply (g : Grid) (j : Fin 165) :
    flipGrid g j = g (mirrorIdx j) := by
  unfold flipGrid
  rw [foldl_swap flipPairs (by decide) g j, mirrorIdx_eq_foldr j]

theorem mirrorIdx_involutive (j : Fin 165) : mirrorIdx (mirrorIdx j) = j := by
  revert j; decide

/-- `turn_screen` from fruit.c: clear the player's cell in the grid, flip
the grid vertically, and mirror the grid-y and pixel-y coordinate of every
active object. (The forced redraw calls have no game-state effect.) -/
def turn_screen (s : GameState) : GameState :=
  let g0 := gridSet s.level_data (gridIdx (s.objects 0).dx (s.objects 0).dy) 0
  let g1 := flipGrid g0
  { s with
    level_data := g1,
    objects := fun c =>
      let o := s.objects c
      if o.l ≠ 0 then
        { o with dy := LEVEL_HEIGHT - 1 - o.dy,
                 y := (LEVEL_HEIGHT - 1) * 16 + 8 - (o.y - 8) }
      else o }

/-- `get_item` from fruit.c: read the tile code at the player's cell, clear
the cell, then apply the single corresponding effect. -/
def get_item (s : GameState) : GameState :=
  let p := s.objects 0
  let pos := gridIdx p.dx p.dy
  let item := gridGet s.level_data pos
  let s1 := { s with level_data := gridSet s.level_data pos 0 }
  if item = 1 then { s1 with score := s1.score + 10 }
  else if item = 4 then { s1 with fruit := s1.fruit - 1, score := s1.score + 500 }
  else if item = 5 then { s1 with score := s1.score + 100 }
  else if item = 6 then
    let s2 := teleport s1
    { s2 with score := s2.score + 200 }
  else if item = 7 then { s1 with av_time := s1.av_time + 50 }
  else if item = 8 then
    let s2 := turn_screen s1
    { s2 with score := s2.score + 300 }
  else if item = 9 then { s1 with lives := s1.lives + 1 }
  else if item = 10 then { s1 with freeze_enemy := 300, score := s1.score + 150 }
  else if item = 12 then { s1 with dead := 1 }
  else s1

/-- `search_rock` from fruit.c: first rock slot (5..14) that is active and
sits at `(xr, yr)`; `none` models the C return value `-1`. -/
def search_rock (s : GameState) (xr yr : Int) : Option (Fin 16) :=
  ([5, 6, 7, 8, 9, 10, 11, 12, 13, 14] : List (Fin 16)).find?
    (fun c => (s.objects c).l != 0 && (s.objects c).dx == xr && (s.objects c).dy == yr)

/-- `update_character_animation` from fruit.c (pure cosmetic state). -/
def update_character_animation (o : OBJECT) (is_mov : Bool) (now : Nat) : OBJECT :=
  let animation_interval : Nat := 100 * 1000
  let o1 :=
    if now - o.last_anim_time ≥ animation_interval then
      { o with
        current_frame := if is_mov then (o.current_frame + 1) % 4
                         else (o.current_frame + 1) % 2,
        last_anim_time := now }
    else o
  { o1 with sx := o1.current_frame * 16, sy := o1.base_sy }

/-- The interpolated pixel coordinate
`start + (int)((target - start) * progress)` with
`progress = elapsed / TILE_MOVEMENT_DURATION_US`, modelled with exact
integer arithmetic truncated towards zero. -/
def lerpCoord (st tg : Int) (elapsed : Nat) : Int :=
  st + (tg - st) * (elapsed : Int) / (TILE_MOVEMENT_DURATION_US : Int)

/-- The continuous-slide check of `update_player_position`: if the same
directional key that caused the completed move is still held and the next
cell in that direction is inside the grid, the next target cell. -/
def continuation_target (q : OBJECT) (keys : Keys) : Option (Int × Int) :=
  if q.dir = UP ∧ keys.up ∧ q.dy > 0 then some (q.dx, q.dy - 1)
  else if q.dir = DOWN ∧ keys.down ∧ q.dy < LEVEL_HEIGHT - 1 then some (q.dx, q.dy + 1)
  else if q.dir = LEFT ∧ keys.left ∧ q.dx > 0 then some (q.dx - 1, q.dy)
  else if q.dir = RIGHT ∧ keys.right ∧ q.dx < LEVEL_WIDTH - 1 then some (q.dx + 1, q.dy)
  else none

/-- `update_player_position` from fruit.c: advance the player's tile
movement; on completion collect the item at the destination and either
continue sliding (same key still held and next tile passable) or go idle. -/
def update_player_position (s : GameState) (keys : Keys) (now : Nat) : GameState :=
  let p := s.objects 0
  if !p.is_moving then
    setObj s 0 (update_character_animation p false now)
  else
    let elapsed := now - p.movement_start_time
    if elapsed ≥ TILE_MOVEMENT_DURATION_US then
      let p1 := { p with x := p.target_x, y := p.target_y,
                         dx := p.target_dx, dy := p.target_dy }
      let s1 := get_item (setObj s 0 p1)
      let q := s1.objects 0
      match continuation_target q keys with
      | some (ndx, ndy) =>
          if is_passable (gridGet s1.level_data (gridIdx ndx ndy)) then
            setObj s1 0 { q with target_dx := ndx, target_dy := ndy,
                                 start_x := q.x, start_y := q.y,
                                 target_x := ndx * 16 + 8, target_y := ndy * 16 + 8,
                                 movement_start_time := now }
          else
            setObj s1 0 { q with is_moving := false, dir := 0 }
      | none => setObj s1 0 { q with is_moving := false, dir := 0 }
    else
      let p1 := { p with x := lerpCoord p.start_x p.target_x elapsed,
                         y := lerpCoord p.start_y p.target_y elapsed }
      setObj s 0 (update_character_animation p1 true now)

/-- The input-selection phase of `move_player` (fruit.c lines 1632-1683):
first the queued accelerometer single-step move, then the digital key
chain. Returns `(target_dx, target_dy, direction, sprite_sy)`. Note that in
the source the `direction == 0` guard is present only on the first (UP)
keyboard branch; the DOWN/LEFT/RIGHT branches are evaluated even when the
accelerometer already selected a direction, and each branch updates only
its own coordinate. -/
def select_direction (p : OBJECT) (keys : Keys) (accel_move : Int) :
    Int × Int × Int × Int :=
  let a : Int × Int × Int × Int :=
    if accel_move ≠ 0 then
      if accel_move = 3 ∧ p.dy > 0 then (p.dx, p.dy - 1, UP, 64)
      else if accel_move = 4 ∧ p.dy < LEVEL_HEIGHT - 1 then (p.dx, p.dy + 1, DOWN, 80)
      else if accel_move = 1 ∧ p.dx > 0 then (p.dx - 1, p.dy, LEFT, 32)
      else if accel_move = 2 ∧ p.dx < LEVEL_WIDTH - 1 then (p.dx + 1, p.dy, RIGHT, 48)
      else (p.dx, p.dy, 0, p.sy)
    else (p.dx, p.dy, 0, p.sy)
  let tdx := a.1
  let tdy := a.2.1
  let dir := a.2.2.1
  let ssy := a.2.2.2
  if dir = 0 ∧ keys.up ∧ p.dy > 0 then (tdx, p.dy - 1, UP, 64)
  else if keys.down ∧ p.dy < LEVEL_HEIGHT - 1 then (tdx, p.dy + 1, DOWN, 80)
  else if keys.left ∧ p.dx > 0 then (p.dx - 1, tdy, LEFT, 32)
  else if keys.right ∧ p.dx < LEVEL_WIDTH - 1 then (p.dx + 1, tdy, RIGHT, 48)
  else (tdx, tdy, dir, ssy)

/-- The stone-block push of `move_player` (target tile 11): `none` models
the rejecting `return` paths (edge of grid, destination not empty); `some`
returns the state after the block has been set moving (old cell cleared,
object 15 activated, destination cell set to 11). -/
def block_push (s : GameState) (tdx tdy dir : Int) (now : Nat) : Option GameState :=
  let dest : Option (Int × Int) :=
    if dir = LEFT then (if tdx ≤ 0 then none else some (tdx - 1, tdy))
    else if dir = RIGHT then (if tdx ≥ LEVEL_WIDTH - 1 then none else some (tdx + 1, tdy))
    else if dir = UP then (if tdy ≤ 0 then none else some (tdx, tdy - 1))
    else if dir = DOWN then (if tdy ≥ LEVEL_HEIGHT - 1 then none else some (tdx, tdy + 1))
    else some (tdx, tdy)
  match dest with
  | none => none
  | some (pdx, pdy) =>
      if gridGet s.level_data (gridIdx pdx pdy) ≠ 0 then none
      else
        let s1 := { s with level_data := gridSet s.level_data (gridIdx tdx tdy) 0 }
        let blk := { s1.objects 15 with
                     l := 1, dx := pdx, dy := pdy,
                     start_x := tdx * 16 + 8, start_y := tdy * 16 + 8,
                     target_x := pdx * 16 + 8, target_y := pdy * 16 + 8,
                     x := tdx * 16 + 8, y := tdy * 16 + 8,
                     movement_start_time := now, is_moving := true, dir := dir }
        let s2 := setObj s1 15 blk
        some { s2 with level_data := gridSet s2.level_data (gridIdx pdx pdy) 11 }

/-- The rock push of `move_player` (target tile 3): `none` models the
rejecting `return` paths (no rock object found, edge of grid, pushing down,
destination not empty, or the sideways-stability rule); `some` returns the
state after the rock has been set moving (old cell cleared, rock object
retargeted, destination cell reserved with 255). -/
def rock_push (s : GameState) (tdx tdy dir : Int) (now : Nat) : Option GameState :=
  match search_rock s tdx tdy with
  | none => none
  | some rock_idx =>
      let dest : Option (Int × Int) :=
        if dir = LEFT then (if tdx ≤ 0 then none else some (tdx - 1, tdy))
        else if dir = RIGHT then (if tdx ≥ LEVEL_WIDTH - 1 then none else some (tdx + 1, tdy))
        else if dir = UP then (if tdy ≤ 0 then none else some (tdx, tdy - 1))
        else if dir = DOWN then none
        else some (tdx, tdy)
      match dest with
      | none => none
      | some (pdx, pdy) =>
          if gridGet s.level_data (gridIdx pdx pdy) ≠ 0 then none
          else if (dir = LEFT ∨ dir = RIGHT) ∧ pdy < LEVEL_HEIGHT - 1 ∧
                  gridGet s.level_data (gridIdx pdx (pdy + 1)) = 0 then none
          else
            let s1 := { s with level_data := gridSet s.level_data (gridIdx tdx tdy) 0 }
            let o := s1.objects rock_idx
            let o1 := { o with target_dx := pdx, target_dy := pdy,
                               start_x := o.x, start_y := o.y,
                               target_x := pdx * 16 + 8, target_y := pdy * 16 + 8,
                               movement_start_time := now, is_moving := true, dir := dir }
            let s2 := setObj s1 rock_idx o1
            some { s2 with level_data := gridSet s2.level_data (gridIdx pdx pdy) 255 }

/-- The final block of `move_player`: put the player into the moving state
towards `(tdx, tdy)` and reset the animation. -/
def startPlayerMove (s : GameState) (tdx tdy dir ssy : Int) (now : Nat) : GameState :=
  let p := s.objects 0
  setObj s 0 { p with target_dx := tdx, target_dy := tdy,
                      start_x := p.x, start_y := p.y,
                      target_x := tdx * 16 + 8, target_y := tdy * 16 + 8,
                      movement_start_time := now, is_moving := true, dir := dir,
                      base_sy := ssy, current_frame := 0, last_anim_time := now,
                      sx := 0, sy := ssy }

/-- The movement-request part of `move_player` (fruit.c lines 1632-1845),
entered when the player is idle and the escape/F2/F3 keys did not end the
tick: select the direction, then either reject (state unchanged) or start
the move, handling block and rock pushes. -/
def movePlayerCore (s : GameState) (keys : Keys) (accel_move : Int) (now : Nat) :
    GameState :=
  let p := s.objects 0
  let sel := select_direction p keys accel_move
  let tdx := sel.1
  let tdy := sel.2.1
  let dir := sel.2.2.1
  let ssy := sel.2.2.2
  if dir = 0 then s
  else
    let target_tile := gridGet s.level_data (gridIdx tdx tdy)
    if target_tile = 11 then
      match block_push s tdx tdy dir now with
      | none => s
      | some s1 => startPlayerMove s1 tdx tdy dir ssy now
    else if target_tile = 3 then
      match rock_push s tdx tdy dir now with
      | none => s
      | some s1 => startPlayerMove s1 tdx tdy dir ssy now
    else if !is_passable target_tile then s
    else startPlayerMove s tdx tdy dir ssy now

/-- `move_player` from fruit.c: advance the in-flight movement, then (if
idle) handle escape and the F2/F3 level-navigation edge triggers, and
finally process a new movement request. `accel_move` is the value of
`accelerometer_get_pending_move()`; its consumption is part of the
accelerometer module model. -/
def move_player (s : GameState) (keys : Keys) (accel_move : Int) (now : Nat) :
    GameState :=
  let s0 := update_player_position s keys now
  if (s0.objects 0).is_moving then s0
  else if keys.escape then { s0 with dead := 1 }
  else if keys.f2 ∧ !s0.f2_pressed then
    let s1 := if s0.level > 1 then
        { s0 with level := s0.level - 1, level_change_requested := 1, fruit := 0 }
      else s0
    { s1 with f2_pressed := true }
  else
    let s1 := if !keys.f2 then { s0 with f2_pressed := false } else s0
    if keys.f3 ∧ !s1.f3_pressed then
      let s2 := if s1.level < 25 then
          { s1 with level := s1.level + 1, level_change_requested := 1, fruit := 0 }
        else s1
      { s2 with f3_pressed := true }
    else
      let s2 := if !keys.f3 then { s1 with f3_pressed := false } else s1
      movePlayerCore s2 keys accel_move now

/-- The "start falling" block of `move_rocks` (it appears twice in the C
code: initial gravity start, fruit.c lines 1422-1432, and immediate
chain-fall on arrival, lines 1476-1486): mark rock `r` as falling one cell
down and write the moving marker 80 over its current cell. -/
def start_rock_fall (s : GameState) (r : Fin 16) (now : Nat) : GameState :=
  let o := s.objects r
  let o1 := { o with movement_start_time := now, is_moving := true,
                     dir := DOWN, l := 2,
                     start_x := o.x, start_y := o.y,
                     target_dx := o.dx, target_dy := o.dy + 1,
                     target_x := o.dx * 16 + 8,
                     target_y := (o.dy + 1) * 16 + 8 }
  { setObj s r o1 with
    level_data := gridSet s.level_data (gridIdx o.dx o.dy) 80 }

/-- The arrival block of `move_rocks` (fruit.c lines 1444-1463): stop the
movement, clear the old cell if it holds a moving marker (80 or 255), move
the object to its target, write tile 3 there and mark the rock stationary. -/
def rock_arrive (s : GameState) (r : Fin 16) : GameState :=
  let o := s.objects r
  let o1 := { o with is_moving := false, dir := 0 }
  let old_pos := gridIdx o1.dx o1.dy
  let g1 := if gridGet s.level_data old_pos = 80 ∨
               gridGet s.level_data old_pos = 255 then
      gridSet s.level_data old_pos 0
    else s.level_data
  let o2 := { o1 with dx := o1.target_dx, dy := o1.target_dy,
                      x := o1.target_x, y := o1.target_y }
  let g2 := gridSet g1 (gridIdx o2.dx o2.dy) 3
  let o3 := { o2 with l := 1 }
  { setObj s r o3 with level_data := g2 }

/-- The movement-update section of the `move_rocks` loop body (fruit.c
lines 1439-1506): advance an in-flight fall — on arrival settle and
possibly chain-fall immediately (unless blocked below or the player is
directly below) — otherwise interpolate, and ensure an idle rock is marked
stationary. -/
def move_rock_motion (s : GameState) (r : Fin 16) (now : Nat) : GameState :=
  let o := s.objects r
  if o.is_moving then
    let elapsed := now - o.movement_start_time
    if elapsed ≥ TILE_MOVEMENT_DURATION_US then
      let sB := rock_arrive s r
      let o3 := sB.objects r
      if o3.dy < LEVEL_HEIGHT - 1 then
        let d := gridGet sB.level_data (gridIdx o3.dx (o3.dy + 1))
        if d = 0 ∨ d = 81 then
          if ¬(o3.dx = (sB.objects 0).dx ∧ o3.dy = (sB.objects 0).dy - 1) then
            start_rock_fall sB r now
          else sB
        else sB
      else sB
    else
      setObj s r { o with x := lerpCoord o.start_x o.target_x elapsed,
                          y := lerpCoord o.start_y o.target_y elapsed }
  else
    setObj s r { o with l := 1 }

/-- The body of the `move_rocks` loop for one rock slot `r` (fruit.c lines
1409-1507): start a gravity fall when the rock is idle with a clear cell
below (unless the player is directly below), then run the movement-update
section on the result. -/
def move_rock_one (s : GameState) (r : Fin 16) (now : Nat) : GameState :=
  let o := s.objects r
  if o.l ≠ 0 then
    let sA :=
      if !o.is_moving ∧ o.dy < LEVEL_HEIGHT - 1 then
        let d := gridGet s.level_data (gridIdx o.dx (o.dy + 1))
        if d = 0 ∨ d = 81 then
          if ¬(o.dx = (s.objects 0).dx ∧ o.dy = (s.objects 0).dy - 1) then
            start_rock_fall s r now
          else s
        else s
      else s
    move_rock_motion sA r now
  else s

/-- The rock slots 5..14 of the object table. -/
def rockSlots : List (Fin 16) := [5, 6, 7, 8, 9, 10, 11, 12, 13, 14]

/-- `move_rocks` from fruit.c: run the per-rock gravity/movement body for
slots 5..14 in order. -/
def move_rocks (s : GameState) (now : Nat) : GameState :=
  rockSlots.foldl (fun acc r => move_rock_one acc r now) s

/-- `move_block` from fruit.c: advance the pushable stone block (object 15);
on arrival it settles (object deactivated, level tile 11 written). -/
def move_block (s : GameState) (now : Nat) : GameState :=
  let o := s.objects 15
  if o.l ≠ 0 ∧ o.is_moving then
    let elapsed := now - o.movement_start_time
    if elapsed ≥ TILE_MOVEMENT_DURATION_US then
      let o1 := { o with is_moving := false, dir := 0,
                         x := o.target_x, y := o.target_y, l := 0 }
      { setObj s 15 o1 with
        level_data := gridSet s.level_data (gridIdx o1.dx o1.dy) 11 }
    else
      setObj s 15 { o with x := lerpCoord o.start_x o.target_x elapsed,
                           y := lerpCoord o.start_y o.target_y elapsed }
  else s

/-- The `while (level_data[c] != 32) c++` scan of `init_objects` (the C
loop has no bound; a level with no start marker would overrun, so validity
of the level is the hypothesis `(find32 g).isSome`). -/
def find32 (g : Grid) : Option (Fin 165) :=
  (List.finRange 165).find? (fun c => g c == 32)

/-- `init_block_sprite` from fruit.c: reset object 15. -/
def init_block_sprite (s : GameState) : GameState :=
  setObj s 15 { zeroObject with sx := 11 * 16, sy := 16 }

/-- One step of the rock/enemy initialization scan of `init_objects`
(fruit.c lines 1220-1253) at cell `c`, threading the accumulator
`(objects, cur_rock, cur_enemy)`: a rock tile (3) fills the next rock slot
while `cur_rock < 15`, an enemy tile (14 or 13) fills the next enemy slot
while `cur_enemy < 5`; excess level-authored rocks/enemies are dropped. -/
def initScanStep (g : Grid) (acc : (Fin 16 → OBJECT) × Nat × Nat)
    (c : Fin 165) : (Fin 16 → OBJECT) × Nat × Nat :=
  let f := acc.1
  let cur_rock := acc.2.1
  let cur_enemy := acc.2.2
  let acc1 :=
    if g c = 3 ∧ cur_rock < 15 then
      (fun j : Fin 16 => if (j : Nat) = cur_rock then
          { zeroObject with
            dx := ((c : Nat) : Int) % 15, dy := ((c : Nat) : Int) / 15,
            x := (((c : Nat) : Int) % 15) * 16 + 8,
            y := (((c : Nat) : Int) / 15) * 16 + 8,
            l := 1, sx := 48, sy := 16,
            target_dx := ((c : Nat) : Int) % 15,
            target_dy := ((c : Nat) : Int) / 15,
            target_x := (((c : Nat) : Int) % 15) * 16 + 8,
            target_y := (((c : Nat) : Int) / 15) * 16 + 8,
            start_x := (((c : Nat) : Int) % 15) * 16 + 8,
            start_y := (((c : Nat) : Int) / 15) * 16 + 8 }
        else f j, cur_rock + 1, cur_enemy)
    else (f, cur_rock, cur_enemy)
  let f1 := acc1.1
  let cur_rock1 := acc1.2.1
  let cur_enemy1 := acc1.2.2
  if (g c = 14 ∨ g c = 13) ∧ cur_enemy1 < 5 then
    (fun j : Fin 16 => if (j : Nat) = cur_enemy1 then
        { zeroObject with
          dx := ((c : Nat) : Int) % 15, dy := ((c : Nat) : Int) / 15,
          x := (((c : Nat) : Int) % 15) * 16 + 8,
          y := (((c : Nat) : Int) / 15) * 16 + 8,
          l := if g c = 14 then 1 else 2,
          sy := if g c = 14 then 32 else 48,
          dir := if g c = 14 then LEFT else UP }
      else f1 j, cur_rock1, cur_enemy1 + 1)
  else (f1, cur_rock1, cur_enemy1)

/-- The full rock/enemy initialization scan of `init_objects`. -/
def initScan (g : Grid) (f : Fin 16 → OBJECT) : Fin 16 → OBJECT :=
  ((List.finRange 165).foldl (initScanStep g) (f, 5, 1)).1

/-- `init_objects` from fruit.c: reset the object table, place the player
at the start marker (tile 32) and clear that cell, scan the grid for rocks
and enemies, and reset the block object. If the grid has no start marker
the C loop would overrun the array (undefined behaviour); the model leaves
the state unchanged in that case and validity hypotheses exclude it. -/
def init_objects (s : GameState) (now : Nat) : GameState :=
  match find32 s.level_data with
  | none => s
  | some c =>
      let cv : Int := (c : Nat)
      let player := { zeroObject with
        dx := cv % 15, dy := cv / 15,
        x := (cv % 15) * 16 + 8, y := (cv / 15) * 16 + 8,
        l := 1, sx := 0, sy := 48,
        target_dx := cv % 15, target_dy := cv / 15,
        start_x := (cv % 15) * 16 + 8, start_y := (cv / 15) * 16 + 8,
        target_x := (cv % 15) * 16 + 8, target_y := (cv / 15) * 16 + 8,
        movement_start_time := 0, is_moving := false,
        current_frame := 0, last_anim_time := now, base_sy := 48 }
      let f0 : Fin 16 → OBJECT := fun _ => zeroObject
      let f1 := fun j : Fin 16 => if j = 0 then player else f0 j
      let g1 := gridSet s.level_data cv 0
      let f2 := initScan g1 f1
      init_block_sprite { s with level_data := g1, objects := f2 }

/-- The end-of-level dispatch of `game()` (fruit.c lines 2217-2226), run
after the inner per-tick loop exits: a manual F2/F3 level change only
resets the request flag; running out of time or dying costs a life; having
collected all fruit advances the level and awards `av_time * 10`. -/
def level_outcome (s : GameState) : GameState :=
  if s.level_change_requested ≠ 0 then { s with level_change_requested := 0 }
  else if s.av_time = 0 ∨ s.dead ≠ 0 then { s with lives := s.lives - 1 }
  else if s.fruit = 0 then
    { s with level := s.level + 1, score := s.score + s.av_time * 10 }
  else s

/-- Tilt values are modelled in centi-g scaled integers (the C float value
0.01 corresponds to 1 here): the accelerometer state machine uses the raw
samples only through negation, `fabs` and comparisons with the three
configured thresholds, all of which are exact float operations, so any
strictly monotone rescaling of the sample axis preserves the machine's
behaviour exactly.

Configuration constant `small_tilt_threshold` of accelerometer.c
(0.2 g, scaled). -/
def small_tilt_threshold : Int := 20

/-- Configuration constant `large_tilt_threshold` of accelerometer.c
(0.45 g, scaled). -/
def large_tilt_threshold : Int := 45

/-- Configuration constant `deadzone` of accelerometer.c (0.08 g, scaled). -/
def deadzone : Int := 8

/-- Configuration constant `move_cooldown_us` of accelerometer.c. -/
def move_cooldown_us : Nat := 200000

/-- Configuration constant `gesture_reset_time_us` of accelerometer.c. -/
def gesture_reset_time_us : Nat := 100000

/-- `fabs` as used by accelerometer.c. -/
def fabs (q : Int) : Int := if q < 0 then -q else q

/-- The mutable state of the accelerometer input module
(accelerometer.c statics). -/
structure AccelState where
  prev_left : Bool
  prev_right : Bool
  prev_up : Bool
  prev_down : Bool
  last_move_time : Fin 4 → Nat
  tilt_gesture_active : Fin 4 → Bool
  deadzone_enter_time : Nat
  in_deadzone : Bool
  pending_single_move : Int

/-- Initial accelerometer module state (C static initializers). -/
def accelInit : AccelState :=
  { prev_left := false, prev_right := false, prev_up := false,
    prev_down := false, last_move_time := fun _ => 0,
    tilt_gesture_active := fun _ => false, deadzone_enter_time := 0,
    in_deadzone := false, pending_single_move := 0 }

/-- Direction index `DIR_LEFT` of accelerometer.c. -/
def DIR_LEFT : Fin 4 := 0

/-- Direction index `DIR_RIGHT` of accelerometer.c. -/
def DIR_RIGHT : Fin 4 := 1

/-- Direction index `DIR_UP` of accelerometer.c. -/
def DIR_UP : Fin 4 := 2

/-- Direction index `DIR_DOWN` of accelerometer.c. -/
def DIR_DOWN : Fin 4 := 3

/-- `handle_single_move` from accelerometer.c: one-shot queueing of a
single-step move — only when this direction's gesture is not yet active, no
move is pending, and the per-direction cooldown has elapsed. -/
def handle_single_move (st : AccelState) (dir_index : Fin 4) (now : Nat) :
    AccelState :=
  if !st.tilt_gesture_active dir_index ∧ st.pending_single_move = 0 ∧
     now - st.last_move_time dir_index ≥ move_cooldown_us then
    { st with
      tilt_gesture_active := fun i => if i = dir_index then true
                                      else st.tilt_gesture_active i,
      pending_single_move := ((dir_index : Nat) : Int) + 1,
      last_move_time := fun i => if i = dir_index then now
                                 else st.last_move_time i }
  else st

/-- `accelerometer_get_pending_move` from accelerometer.c. -/
def accelerometer_get_pending_move (st : AccelState) : Int :=
  st.pending_single_move

/-- `accelerometer_consume_pending_move` from accelerometer.c. -/
def accelerometer_consume_pending_move (st : AccelState) : AccelState :=
  if st.pending_single_move ≠ 0 then { st with pending_single_move := 0 } else st

/-- The per-direction processing block of `process_accelerometer_data` for
a direction whose tilt test passed (`tilt` is the signed value already
oriented so that positive magnitude means this direction): large tilt
presses the synthetic key, mid-range tilt requests a one-shot single move. -/
def accel_direction_step (st : AccelState) (active : Bool) (magnitude : Int)
    (dir_index : Fin 4) (setPrev : AccelState → Bool → AccelState) (now : Nat) :
    AccelState :=
  if active then
    if magnitude ≥ large_tilt_threshold then
      if !(match dir_index with
           | 0 => st.prev_left | 1 => st.prev_right
           | 2 => st.prev_up | 3 => st.prev_down) then setPrev st true else st
    else if magnitude ≥ small_tilt_threshold then
      handle_single_move st dir_index now
    else st
  else
    if (match dir_index with
        | 0 => st.prev_left | 1 => st.prev_right
        | 2 => st.prev_up | 3 => st.prev_down) then setPrev st false else st

/-- `process_accelerometer_data` from accelerometer.c: axis inversion,
deadzone handling (with the grace-period gesture reset and synthetic key
release), then the four per-direction dual-threshold blocks. The SDL key
events feed `keyboard_state`, tracked here by the `prev_*` flags. -/
def process_accelerometer_data (st : AccelState) (xin yin : Int) (now : Nat) :
    AccelState :=
  let x := -xin
  let y := yin
  if fabs x < deadzone ∧ fabs y < deadzone then
    let st1 := if !st.in_deadzone then
        { st with in_deadzone := true, deadzone_enter_time := now }
      else st
    let st2 := if now - st1.deadzone_enter_time ≥ gesture_reset_time_us then
        { st1 with tilt_gesture_active := fun _ => false }
      else st1
    { st2 with prev_left := false, prev_right := false,
               prev_up := false, prev_down := false }
  else
    let st0 := { st with in_deadzone := false }
    let stL := accel_direction_step st0 (decide (x < -deadzone)) (fabs x) DIR_LEFT
      (fun s b => { s with prev_left := b }) now
    let stR := accel_direction_step stL (decide (x > deadzone)) (fabs x) DIR_RIGHT
      (fun s b => { s with prev_right := b }) now
    let stU := accel_direction_step stR (decide (y > deadzone)) (fabs y) DIR_UP
      (fun s b => { s with prev_up := b }) now
    accel_direction_step stU (decide (y < -deadzone)) (fabs y) DIR_DOWN
      (fun s b => { s with prev_down := b }) now

/-!
## Claim theorems
-/

/-- C3: for every attempted push of a rock by the player in the downward
direction (the selected direction is DOWN and the selected target cell
holds a rock, tile code 3), the push is rejected regardless of the content
of the cell beyond the rock: `move_player`'s request phase leaves the whole
game state — grid, all entities, all counters — unchanged, so no rock
movement and no player movement starts. -/
theorem C3_push_rock_down_rejected (s : GameState) (keys : Keys)
    (accel_move : Int) (now : Nat) (tdx tdy ssy : Int)
    (hsel : select_direction (s.objects 0) keys accel_move = (tdx, tdy, DOWN, ssy))
    (htile : gridGet s.level_data (gridIdx tdx tdy) = 3) :
    movePlayerCore s keys accel_move now = s := by
  simp only [movePlayerCore, hsel, htile]
  norm_num [DOWN, rock_push, LEFT, RIGHT, UP]
  rcases h : search_rock s tdx tdy with _ | c <;> simp

/-- A concrete fixture: player at (5,4) above a rock at (5,5) whose
supporting cell (5,6) holds a wall (2); all counters at level start. -/
def fixRockBelow : GameState where
  level_data := fun j =>
    if (j : Nat) = 5 + 5 * 15 then 3 else if (j : Nat) = 5 + 6 * 15 then 2 else 0
  objects := fun j =>
    if j = 0 then
      { zeroObject with dx := 5, dy := 4, x := 5 * 16 + 8, y := 4 * 16 + 8, l := 1 }
    else if j = 5 then
      { zeroObject with dx := 5, dy := 5, x := 5 * 16 + 8, y := 5 * 16 + 8,
                        l := 1, sx := 48, sy := 16 }
    else zeroObject
  av_time := 100
  score := 0
  level := 1
  lives := 3
  fruit := 1
  dead := 0
  freeze_enemy := 0
  level_change_requested := 0
  f2_pressed := false
  f3_pressed := false

/-- C3 witness: in the concrete fixture, holding the DOWN key (an attempted
downward rock push) leaves the state unchanged. -/
theorem C3_push_rock_down_rejected_witness :
    select_direction (fixRockBelow.objects 0) { noKeys with down := true } 0 =
      (5, 5, DOWN, 80) ∧
    gridGet fixRockBelow.level_data (gridIdx 5 5) = 3 ∧
    movePlayerCore fixRockBelow { noKeys with down := true } 0 12345 = fixRockBelow :=
  ⟨by decide, by decide,
   C3_push_rock_down_rejected _ _ _ _ 5 5 80 (by decide) (by decide)⟩

/-- Writing the same value at the same cell twice equals writing it once. -/
theorem gridSet_gridSet_same (g : Grid) (i v : Int) :
    gridSet (gridSet g i v) i v = gridSet g i v := by
  unfold gridSet
  split
  · funext j
    by_cases h : (j : Nat) = i.toNat <;> simp [h]
  · rfl

/-- C2: for every attempted sideways push of a rock (the selected direction
is LEFT or RIGHT and the selected target cell holds a rock, tile code 3),
if the push destination is not on the bottom row and the cell directly
below the destination is empty (tile code 0), the push is rejected:
`move_player`'s request phase leaves the whole game state — grid, all
entities, all counters — unchanged, so neither the rock nor the player
starts moving. -/
theorem C2_push_rock_sideways_unsupported_rejected (s : GameState) (keys : Keys)
    (accel_move : Int) (now : Nat) (tdx tdy dir ssy : Int)
    (hsel : select_direction (s.objects 0) keys accel_move = (tdx, tdy, dir, ssy))
    (hdir : dir = LEFT ∨ dir = RIGHT)
    (htile : gridGet s.level_data (gridIdx tdx tdy) = 3)
    (hrow : tdy < LEVEL_HEIGHT - 1)
    (hbelow : gridGet s.level_data
      (gridIdx (if dir = LEFT then tdx - 1 else tdx + 1) (tdy + 1)) = 0) :
    movePlayerCore s keys accel_move now = s := by
  have hpush : rock_push s tdx tdy dir now = none := by
    unfold rock_push
    rcases h2 : search_rock s tdx tdy with _ | c
    · rfl
    · rcases hdir with h | h <;> subst h <;>
        simp only [LEFT, RIGHT, LEVEL_WIDTH, LEVEL_HEIGHT] at hrow hbelow ⊢ <;>
        norm_num <;> split_ifs with h3 h4 <;> simp_all <;> omega
  have h0 : ¬dir = 0 := by rcases hdir with h | h <;> subst h <;> decide
  simp only [movePlayerCore, hsel, htile, hpush]
  rw [if_neg h0, if_neg (by decide : ¬((3 : Int) = 11))]
  simp

/-- A concrete fixture: player at (5,5), rock at (4,5) resting on a wall,
with the push destination (3,5) empty and the cell (3,6) below the
destination empty as well. -/
def fixRockUnsupported : GameState where
  level_data := fun j =>
    if (j : Nat) = 4 + 5 * 15 then 3 else if (j : Nat) = 4 + 6 * 15 then 2 else 0
  objects := fun j =>
    if j = 0 then
      { zeroObject with dx := 5, dy := 5, x := 5 * 16 + 8, y := 5 * 16 + 8, l := 1 }
    else if j = 5 then
      { zeroObject with dx := 4, dy := 5, x := 4 * 16 + 8, y := 5 * 16 + 8,
                        l := 1, sx := 48, sy := 16 }
    else zeroObject
  av_time := 100
  score := 0
  level := 1
  lives := 3
  fruit := 1
  dead := 0
  freeze_enemy := 0
  level_change_requested := 0
  f2_pressed := false
  f3_pressed := false

/-- C2 witness: in the concrete fixture, holding the LEFT key (an attempted
sideways push whose destination has an empty cell below) leaves the state
unchanged. -/
theorem C2_push_rock_sideways_unsupported_rejected_witness :
    select_direction (fixRockUnsupported.objects 0)
      { noKeys with left := true } 0 = (4, 5, LEFT, 32) ∧
    gridGet fixRockUnsupported.level_data (gridIdx 4 5) = 3 ∧
    gridGet fixRockUnsupported.level_data (gridIdx 3 6) = 0 ∧
    movePlayerCore fixRockUnsupported { noKeys with left := true } 0 7777 =
      fixRockUnsupported :=
  ⟨by decide, by decide, by decide,
   C2_push_rock_sideways_unsupported_rejected _ _ _ _ 4 5 LEFT 32
     (by decide) (Or.inl rfl) (by decide) (by decide) (by decide)⟩

/-- C6: when the inner game loop of `game()` ends with all fruit collected
(fruit = 0) while time remains (av_time > 0), the player alive (dead = 0)
and no manual F2/F3 level change requested, the end-of-level dispatch
increments the level by 1, adds exactly `av_time * 10` to the score, and
leaves the lives unchanged. -/
theorem C6_level_completion_bonus (s : GameState)
    (hreq : s.level_change_requested = 0) (htime : 0 < s.av_time)
    (hdead : s.dead = 0) (hfruit : s.fruit = 0) :
    (level_outcome s).level = s.level + 1 ∧
    (level_outcome s).score = s.score + s.av_time * 10 ∧
    (level_outcome s).lives = s.lives := by
  unfold level_outcome
  split_ifs with h1 h2 h3 <;> simp_all <;> omega

/-- C6 witness: the end-of-level dispatch on a concrete completed-level
state (av_time = 42, fruit = 0). -/
theorem C6_level_completion_bonus_witness :
    (level_outcome { fixRockBelow with fruit := 0, av_time := 42 }).level = 1 + 1 ∧
    (level_outcome { fixRockBelow with fruit := 0, av_time := 42 }).score = 0 + 42 * 10 ∧
    (level_outcome { fixRockBelow with fruit := 0, av_time := 42 }).lives = 3 :=
  C6_level_completion_bonus _ (by decide) (by decide) (by decide) (by decide)

/-- C7: an invalid movement request from an idle player — no in-range
direction selected (edge of grid), an impassable destination tile, or an
illegal block/rock push — is rejected silently and atomically: the request
phase of `move_player` returns the state exactly as it was (grid, every
entity, every counter), and in particular no moving state is entered. -/
theorem C7_invalid_request_atomic_reject (s : GameState) (keys : Keys)
    (accel_move : Int) (now : Nat) (tdx tdy dir ssy : Int)
    (hsel : select_direction (s.objects 0) keys accel_move = (tdx, tdy, dir, ssy))
    (hrej : dir = 0 ∨
      (gridGet s.level_data (gridIdx tdx tdy) = 11 ∧
        block_push s tdx tdy dir now = none) ∨
      (gridGet s.level_data (gridIdx tdx tdy) = 3 ∧
        rock_push s tdx tdy dir now = none) ∨
      (gridGet s.level_data (gridIdx tdx tdy) ≠ 11 ∧
        gridGet s.level_data (gridIdx tdx tdy) ≠ 3 ∧
        is_passable (gridGet s.level_data (gridIdx tdx tdy)) = false)) :
    movePlayerCore s keys accel_move now = s := by
  simp only [movePlayerCore, hsel]
  rcases hrej with h | ⟨h1, h2⟩ | ⟨h1, h2⟩ | ⟨h1, h2, h3⟩ <;>
    simp_all <;> split_ifs <;> simp_all

/-- A concrete fixture: player at (5,5) with a wall (tile 2) directly
above. -/
def fixWallAbove : GameState where
  level_data := fun j => if (j : Nat) = 5 + 4 * 15 then 2 else 0
  objects := fun j =>
    if j = 0 then
      { zeroObject with dx := 5, dy := 5, x := 5 * 16 + 8, y := 5 * 16 + 8, l := 1 }
    else zeroObject
  av_time := 100
  score := 0
  level := 1
  lives := 3
  fruit := 1
  dead := 0
  freeze_enemy := 0
  level_change_requested := 0
  f2_pressed := false
  f3_pressed := false

/-- C7 witness: holding UP into a wall leaves the state unchanged. -/
theorem C7_invalid_request_atomic_reject_witness :
    movePlayerCore fixWallAbove { noKeys with up := true } 0 9999 = fixWallAbove :=
  C7_invalid_request_atomic_reject _ _ _ _ 5 4 UP 64 (by decide)
    (Or.inr (Or.inr (Or.inr ⟨by decide, by decide, by decide⟩)))

/-- C10: if the player enters a teleporter cell (tile code 6) while no
other cell of the grid holds a 6, `get_item` leaves the player object
(grid and pixel coordinates included) untouched, clears only the cell the
player stands on, and still awards the +200 score; no other state changes. -/
theorem C10_teleport_without_partner (s : GameState)
    (hno : ∀ d : Fin 165,
      ((d : Nat) : Int) ≠ gridIdx (s.objects 0).dx (s.objects 0).dy →
      s.level_data d ≠ 6)
    (htile : gridGet s.level_data (gridIdx (s.objects 0).dx (s.objects 0).dy) = 6) :
    get_item s =
      { s with
        level_data := gridSet s.level_data
          (gridIdx (s.objects 0).dx (s.objects 0).dy) 0,
        score := s.score + 200 } := by
  have hb : 0 ≤ gridIdx (s.objects 0).dx (s.objects 0).dy ∧
      gridIdx (s.objects 0).dx (s.objects 0).dy < 165 := by
    by_contra hcon
    rw [gridGet, dif_neg hcon] at htile
    exact absurd htile (by norm_num)
  have hfind : findTeleporter
      (gridSet s.level_data (gridIdx (s.objects 0).dx (s.objects 0).dy) 0) = none := by
    unfold findTeleporter
    rw [List.find?_eq_none]
    intro d _
    rw [gridSet, if_pos hb]
    simp only [beq_iff_eq]
    split
    · decide
    · rename_i hd
      refine hno d ?_
      intro hcon
      exact hd (by omega)
  simp only [get_item, teleport, htile]
  norm_num
  rw [gridSet_gridSet_same, hfind]
  simp

/-- A concrete fixture: player standing on a lone teleporter tile at
(5,5); no other teleporter exists. -/
def fixLoneTeleporter : GameState where
  level_data := fun j => if (j : Nat) = 5 + 5 * 15 then 6 else 0
  objects := fun j =>
    if j = 0 then
      { zeroObject with dx := 5, dy := 5, x := 5 * 16 + 8, y := 5 * 16 + 8, l := 1 }
    else zeroObject
  av_time := 100
  score := 0
  level := 1
  lives := 3
  fruit := 1
  dead := 0
  freeze_enemy := 0
  level_change_requested := 0
  f2_pressed := false
  f3_pressed := false

/-- C10 witness: entering the lone teleporter clears only that cell, adds
200 to the score and leaves the player where it was. -/
theorem C10_teleport_without_partner_witness :
    get_item fixLoneTeleporter =
      { fixLoneTeleporter with
        level_data := gridSet fixLoneTeleporter.level_data (gridIdx 5 5) 0,
        score := 0 + 200 } :=
  C10_teleport_without_partner _ (by decide) (by decide)

/-- Reading back the cell just written. -/
theorem gridGet_gridSet_self (g : Grid) (i v : Int) (h : 0 ≤ i ∧ i < 165) :
    gridGet (gridSet g i v) i = v := by
  unfold gridGet gridSet
  rw [dif_pos h, if_pos h]
  simp

/-- Applying a written grid at a cell index. -/
theorem gridSet_apply_fin (g : Grid) (i v : Int) (h : 0 ≤ i ∧ i < 165)
    (d : Fin 165) :
    gridSet g i v d = if (d : Nat) = i.toNat then v else g d := by
  unfold gridSet
  rw [if_pos h]

/-- Reading a cell other than the one written. -/
theorem gridGet_gridSet_other (g : Grid) (i j v : Int) (hne : j ≠ i) :
    gridGet (gridSet g i v) j = gridGet g j := by
  unfold gridGet gridSet
  split
  · split
    · rename_i hj hi
      simp only [Fin.val_mk]
      rw [if_neg (by omega)]
    · rfl
  · rfl

/-- Writing a 0 over a cell that already reads 0 changes nothing. -/
theorem gridSet_zero_noop (g : Grid) (i : Int) (hv : gridGet g i = 0) :
    gridSet g i 0 = g := by
  unfold gridSet
  split
  · rename_i h
    funext j
    by_cases hj : (j : Nat) = i.toNat
    · rw [if_pos hj]
      rw [gridGet, dif_pos h] at hv
      have : j = (⟨i.toNat, by omega⟩ : Fin 165) := by
        apply Fin.ext
        simpa using hj
      rw [this, hv]
    · rw [if_neg hj]
  · rfl

/-- `find?` returns the unique element satisfying the predicate. -/
theorem find?_eq_some_of_unique {α : Type} (l : List α) (p : α → Bool) (c : α)
    (hmem : c ∈ l) (hc : p c = true) (huniq : ∀ d ∈ l, p d = true → d = c) :
    l.find? p = some c := by
  induction l with
  | nil => cases hmem
  | cons a t ih =>
      by_cases ha : p a = true
      · have hac : a = c := huniq a (List.mem_cons_self a t) ha
        subst hac
        simp [List.find?, ha]
      · have hct : c ∈ t := by
          rcases List.mem_cons.mp hmem with h | h
          · exact absurd (h ▸ hc) ha
          · exact h
        have ht : ∀ d ∈ t, p d = true → d = c := fun d hd hp =>
          huniq d (List.mem_cons_of_mem a hd) hp
        simp only [List.find?]
        rw [Bool.eq_false_iff.mpr ha]
        exact ih hct ht

/-- A concrete fixture: player at (5,5) on a fully empty grid. -/
def fixOpenCenter : GameState where
  level_data := fun _ => 0
  objects := fun j =>
    if j = 0 then
      { zeroObject with dx := 5, dy := 5, x := 5 * 16 + 8, y := 5 * 16 + 8, l := 1 }
    else zeroObject
  av_time := 100
  score := 0
  level := 1
  lives := 3
  fruit := 1
  dead := 0
  freeze_enemy := 0
  level_change_requested := 0
  f2_pressed := false
  f3_pressed := false

/-- C1 (code bug): with a queued accelerometer single-step LEFT move
(pending value 1) and the DOWN arrow key held, the idle player at (5,5)
does not perform the queued LEFT step to (4,5): the keyboard else-if chain
(whose `direction == 0` guard exists only on its first branch, contradicting
the comment "If no accelerometer move, check keyboard input") overrides the
direction to DOWN while keeping the accelerometer-selected target column,
starting a combined diagonal move to (4,6). The last conjunct shows the
selection the queued step alone would have produced. -/
theorem C1_keyboard_overrides_queued_step :
    ((move_player fixOpenCenter { noKeys with down := true } 1 1000000).objects 0).is_moving = true ∧
    ((move_player fixOpenCenter { noKeys with down := true } 1 1000000).objects 0).target_dx = 4 ∧
    ((move_player fixOpenCenter { noKeys with down := true } 1 1000000).objects 0).target_dy = 6 ∧
    ((move_player fixOpenCenter { noKeys with down := true } 1 1000000).objects 0).dir = DOWN ∧
    select_direction (fixOpenCenter.objects 0) noKeys 1 = (4, 5, LEFT, 32) := by
  decide

/-- C5: when the player enters a teleporter cell (tile code 6) and exactly
one other cell `c` of the grid holds a 6, `get_item` relocates the player's
grid and pixel coordinates to `c`, clears both the entered cell and `c`,
and adds exactly 200 to the score. -/
theorem C5_teleport_to_unique_partner (s : GameState) (c : Fin 165)
    (hdx1 : 0 ≤ (s.objects 0).dx) (hdx2 : (s.objects 0).dx < LEVEL_WIDTH)
    (hdy1 : 0 ≤ (s.objects 0).dy) (hdy2 : (s.objects 0).dy < LEVEL_HEIGHT)
    (htile : gridGet s.level_data (gridIdx (s.objects 0).dx (s.objects 0).dy) = 6)
    (hc : s.level_data c = 6)
    (hcne : ((c : Nat) : Int) ≠ gridIdx (s.objects 0).dx (s.objects 0).dy)
    (huniq : ∀ d : Fin 165, s.level_data d = 6 →
      ((d : Nat) : Int) = gridIdx (s.objects 0).dx (s.objects 0).dy ∨ d = c) :
    (get_item s).score = s.score + 200 ∧
    ((get_item s).objects 0).dx = ((c : Nat) : Int) % 15 ∧
    ((get_item s).objects 0).dy = ((c : Nat) : Int) / 15 ∧
    ((get_item s).objects 0).x = ((c : Nat) : Int) % 15 * 16 + 8 ∧
    ((get_item s).objects 0).y = ((c : Nat) : Int) / 15 * 16 + 8 ∧
    gridGet (get_item s).level_data (gridIdx (s.objects 0).dx (s.objects 0).dy) = 0 ∧
    gridGet (get_item s).level_data ((c : Nat) : Int) = 0 := by
  have hP : 0 ≤ gridIdx (s.objects 0).dx (s.objects 0).dy ∧
      gridIdx (s.objects 0).dx (s.objects 0).dy < 165 := by
    unfold gridIdx LEVEL_WIDTH at *
    unfold LEVEL_HEIGHT at hdy2
    omega
  have hfind : findTeleporter
      (gridSet s.level_data (gridIdx (s.objects 0).dx (s.objects 0).dy) 0) = some c := by
    unfold findTeleporter
    apply find?_eq_some_of_unique
    · exact List.mem_finRange c
    · rw [beq_iff_eq, gridSet_apply_fin _ _ _ hP, if_neg (by omega)]
      exact hc
    · intro d _ hd
      rw [beq_iff_eq, gridSet_apply_fin _ _ _ hP] at hd
      by_cases hdP : (d : Nat) = (gridIdx (s.objects 0).dx (s.objects 0).dy).toNat
      · rw [if_pos hdP] at hd
        norm_num at hd
      · rw [if_neg hdP] at hd
        rcases huniq d hd with h | h
        · exact absurd (by omega) hdP
        · exact h
  have hcb : (0 : Int) ≤ ((c : Nat) : Int) ∧ ((c : Nat) : Int) < 165 := by
    have := c.isLt
    omega
  have hget : get_item s =
      { s with
        level_data := gridSet (gridSet s.level_data
          (gridIdx (s.objects 0).dx (s.objects 0).dy) 0) ((c : Nat) : Int) 0,
        objects := fun j => if j = 0 then
            { s.objects 0 with
              dx := ((c : Nat) : Int) % 15, dy := ((c : Nat) : Int) / 15,
              x := ((c : Nat) : Int) % 15 * 16 + 8,
              y := ((c : Nat) : Int) / 15 * 16 + 8 }
          else s.objects j,
        score := s.score + 200 } := by
    simp only [get_item, teleport, htile]
    norm_num
    rw [gridSet_gridSet_same, hfind]
    simp [setObj]
  rw [hget]
  refine ⟨rfl, by simp, by simp, by simp, by simp, ?_, ?_⟩
  · rw [gridGet_gridSet_other _ _ _ _ (Ne.symm hcne),
      gridGet_gridSet_self _ _ _ hP]
  · rw [gridGet_gridSet_self _ _ _ hcb]

/-- A concrete fixture: player at (5,5) standing on a teleporter (tile 6)
whose unique partner teleporter sits at (2,3), grid index 47. -/
def fixTeleporterPair : GameState where
  level_data := fun j =>
    if (j : Nat) = 5 + 5 * 15 then 6 else if (j : Nat) = 2 + 3 * 15 then 6 else 0
  objects := fun j =>
    if j = 0 then
      { zeroObject with dx := 5, dy := 5, x := 5 * 16 + 8, y := 5 * 16 + 8, l := 1 }
    else zeroObject
  av_time := 100
  score := 0
  level := 1
  lives := 3
  fruit := 1
  dead := 0
  freeze_enemy := 0
  level_change_requested := 0
  f2_pressed := false
  f3_pressed := false

/-- C5 witness: entering the teleporter at (5,5) relocates the player to
(2,3), clears both teleporter cells and adds 200 to the score. -/
theorem C5_teleport_to_unique_partner_witness :
    (get_item fixTeleporterPair).score = 0 + 200 ∧
    ((get_item fixTeleporterPair).objects 0).dx = ((47 : Nat) : Int) % 15 ∧
    ((get_item fixTeleporterPair).objects 0).dy = ((47 : Nat) : Int) / 15 ∧
    ((get_item fixTeleporterPair).objects 0).x = ((47 : Nat) : Int) % 15 * 16 + 8 ∧
    ((get_item fixTeleporterPair).objects 0).y = ((47 : Nat) : Int) / 15 * 16 + 8 ∧
    gridGet (get_item fixTeleporterPair).level_data (gridIdx 5 5) = 0 ∧
    gridGet (get_item fixTeleporterPair).level_data ((47 : Nat) : Int) = 0 :=
  C5_teleport_to_unique_partner fixTeleporterPair ⟨47, by norm_num⟩
    (by decide) (by decide) (by decide) (by decide) (by decide) (by decide)
    (by decide) (by decide)

/-- The grid flip is an involution. -/
theorem flipGrid_flipGrid (g : Grid) : flipGrid (flipGrid g) = g := by
  funext j
  rw [flipGrid_apply, flipGrid_apply, mirrorIdx_involutive]

/-- Unfolding lemma: the grid produced by `turn_screen`. -/
theorem turn_screen_level_data (s : GameState) :
    (turn_screen s).level_data =
      flipGrid (gridSet s.level_data
        (gridIdx (s.objects 0).dx (s.objects 0).dy) 0) := rfl

/-- Unfolding lemma: the objects produced by `turn_screen`. -/
theorem turn_screen_objects (s : GameState) (i : Fin 16) :
    (turn_screen s).objects i =
      if (s.objects i).l ≠ 0 then
        { s.objects i with
          dy := LEVEL_HEIGHT - 1 - (s.objects i).dy,
          y := (LEVEL_HEIGHT - 1) * 16 + 8 - ((s.objects i).y - 8) }
      else s.objects i := rfl

/-- C4 counterexample: `turn_screen` clears the cell the player stands on
before flipping, so the transform applied twice is not the identity on the
grid: in the concrete fixture the player stands on a teleporter tile
(code 6 at grid index 80 = (5,5)) and after two flips that cell reads 0. -/
theorem C4_flip_twice_not_identity :
    (turn_screen (turn_screen fixLoneTeleporter)).level_data ⟨80, by norm_num⟩ = 0 ∧
    fixLoneTeleporter.level_data ⟨80, by norm_num⟩ = 6 := by
  constructor
  · decide
  · decide

/-- C4 (amended): provided the player entity is active, its coordinates are
in range, and the cell it stands on is already empty — which is always the
case when `turn_screen` is reached through `get_item`, since `get_item`
clears the entered cell first — applying `turn_screen` twice restores the
grid exactly and restores every object's grid coordinates and pixel
coordinates. -/
theorem C4_flip_involution (s : GameState)
    (hl : (s.objects 0).l ≠ 0)
    (hdx1 : 0 ≤ (s.objects 0).dx) (hdx2 : (s.objects 0).dx < LEVEL_WIDTH)
    (hdy1 : 0 ≤ (s.objects 0).dy) (hdy2 : (s.objects 0).dy < LEVEL_HEIGHT)
    (hcell : gridGet s.level_data (gridIdx (s.objects 0).dx (s.objects 0).dy) = 0) :
    (turn_screen (turn_screen s)).level_data = s.level_data ∧
    ∀ i : Fin 16,
      ((turn_screen (turn_screen s)).objects i).dx = (s.objects i).dx ∧
      ((turn_screen (turn_screen s)).objects i).dy = (s.objects i).dy ∧
      ((turn_screen (turn_screen s)).objects i).x = (s.objects i).x ∧
      ((turn_screen (turn_screen s)).objects i).y = (s.objects i).y := by
  have hP : 0 ≤ gridIdx (s.objects 0).dx (s.objects 0).dy ∧
      gridIdx (s.objects 0).dx (s.objects 0).dy < 165 := by
    unfold gridIdx LEVEL_WIDTH at *
    unfold LEVEL_HEIGHT at hdy2
    omega
  have hb2 : 0 ≤ gridIdx (s.objects 0).dx (LEVEL_HEIGHT - 1 - (s.objects 0).dy) ∧
      gridIdx (s.objects 0).dx (LEVEL_HEIGHT - 1 - (s.objects 0).dy) < 165 := by
    unfold gridIdx LEVEL_WIDTH LEVEL_HEIGHT at *
    omega
  have hc2 : gridGet (flipGrid s.level_data)
      (gridIdx (s.objects 0).dx (LEVEL_HEIGHT - 1 - (s.objects 0).dy)) = 0 := by
    rw [gridGet, dif_pos hb2, flipGrid_apply]
    have hmir : mirrorIdx
        ⟨(gridIdx (s.objects 0).dx (LEVEL_HEIGHT - 1 - (s.objects 0).dy)).toNat,
          by omega⟩ =
        ⟨(gridIdx (s.objects 0).dx (s.objects 0).dy).toNat, by omega⟩ := by
      apply Fin.ext
      simp only [mirrorIdx, Fin.val_mk]
      unfold gridIdx LEVEL_WIDTH at *
      unfold LEVEL_HEIGHT at *
      omega
    rw [hmir]
    rw [gridGet, dif_pos hP] at hcell
    exact hcell
  have hobj0 : (turn_screen s).objects 0 =
      { s.objects 0 with
        dy := LEVEL_HEIGHT - 1 - (s.objects 0).dy,
        y := (LEVEL_HEIGHT - 1) * 16 + 8 - ((s.objects 0).y - 8) } := by
    rw [turn_screen_objects, if_pos hl]
  constructor
  · rw [turn_screen_level_data, turn_screen_level_data, hobj0,
      gridSet_zero_noop _ _ hcell]
    show flipGrid (gridSet (flipGrid s.level_data)
      (gridIdx (s.objects 0).dx (LEVEL_HEIGHT - 1 - (s.objects 0).dy)) 0) =
      s.level_data
    rw [gridSet_zero_noop _ _ hc2]
    exact flipGrid_flipGrid s.level_data
  · intro i
    rw [turn_screen_objects (turn_screen s) i, turn_screen_objects s i]
    by_cases hli : (s.objects i).l ≠ 0
    · rw [if_pos hli]
      rw [if_pos (by simpa using hli)]
      refine ⟨rfl, ?_, rfl, ?_⟩ <;> simp <;> unfold LEVEL_HEIGHT <;> ring
    · rw [if_neg hli, if_neg hli]
      exact ⟨rfl, rfl, rfl, rfl⟩

/-- C4 witness: in the wall fixture (player active at (5,5) on an empty
cell) the double flip restores the grid and every object's coordinates. -/
theorem C4_flip_involution_witness :
    (turn_screen (turn_screen fixWallAbove)).level_data = fixWallAbove.level_data ∧
    ∀ i : Fin 16,
      ((turn_screen (turn_screen fixWallAbove)).objects i).dx =
        (fixWallAbove.objects i).dx ∧
      ((turn_screen (turn_screen fixWallAbove)).objects i).dy =
        (fixWallAbove.objects i).dy ∧
      ((turn_screen (turn_screen fixWallAbove)).objects i).x =
        (fixWallAbove.objects i).x ∧
      ((turn_screen (turn_screen fixWallAbove)).objects i).y =
        (fixWallAbove.objects i).y :=
  C4_flip_involution fixWallAbove (by decide) (by decide) (by decide)
    (by decide) (by decide) (by decide)

/-- A tilt sample that lies in the deadzone after axis inversion (the
deadzone test of `process_accelerometer_data`). -/
def inDeadzoneSample (xin yin : Int) : Prop :=
  fabs (-xin) < deadzone ∧ fabs yin < deadzone

/-- C9 counterexample: one mid-range LEFT gesture queues a single-step
move; after the move is consumed and the cooldown (200 ms) has fully
elapsed, a continuing sample of the same gesture (never having returned to
the deadzone) does not queue a new move — the cooldown alone does not allow
the same direction to re-trigger, the gesture-active flag must be reset by
a deadzone stay first. -/
theorem C9_cooldown_alone_does_not_retrigger :
    (process_accelerometer_data accelInit 30 0 1000000).pending_single_move = 1 ∧
    (accelerometer_consume_pending_move
      (process_accelerometer_data accelInit 30 0 1000000)).pending_single_move = 0 ∧
    1300000 -
      (accelerometer_consume_pending_move
        (process_accelerometer_data accelInit 30 0 1000000)).last_move_time DIR_LEFT ≥
      move_cooldown_us ∧
    (process_accelerometer_data
      (accelerometer_consume_pending_move
        (process_accelerometer_data accelInit 30 0 1000000))
      30 0 1300000).pending_single_move = 0 := by
  refine ⟨by decide, by decide, by decide, by decide⟩

/-- One-shot property of `handle_single_move`: if direction `i`'s gesture
flag is set or its cooldown has not elapsed, the call cannot queue a new
move for `i`, it preserves `i`'s gesture flag, and the blocking condition
still holds afterwards. -/
theorem handle_single_move_spec (st : AccelState) (j : Fin 4) (now : Nat)
    (i : Fin 4)
    (h : st.tilt_gesture_active i = true ∨
         now - st.last_move_time i < move_cooldown_us) :
    ((handle_single_move st j now).pending_single_move = ((i : Nat) : Int) + 1 →
      st.pending_single_move = ((i : Nat) : Int) + 1) ∧
    (st.tilt_gesture_active i = true →
      (handle_single_move st j now).tilt_gesture_active i = true) ∧
    ((handle_single_move st j now).tilt_gesture_active i = true ∨
      now - (handle_single_move st j now).last_move_time i < move_cooldown_us) := by
  unfold handle_single_move
  split
  · rename_i hcond
    by_cases hji : j = i
    · subst hji
      exfalso
      rcases h with ha | hc
      · rw [ha] at hcond
        simp at hcond
      · have := hcond.2.2
        omega
    · have hij : ¬(i = j) := fun hh => hji hh.symm
      refine ⟨?_, ?_, ?_⟩
      · intro hp
        exfalso
        simp only at hp
        have : (j : Nat) = (i : Nat) := by omega
        exact hji (Fin.ext this)
      · intro ha
        simp only [if_neg hij]
        exact ha
      · simp only [if_neg hij]
        exact h
  · exact ⟨fun hp => hp, fun ha => ha, h⟩

/-- The same one-shot property lifted through one per-direction block of
`process_accelerometer_data`, for any key-release helper `setPrev` that
only touches the `prev_*` fields. -/
theorem accel_direction_step_spec (st : AccelState) (active : Bool) (mag : Int)
    (j : Fin 4) (setPrev : AccelState → Bool → AccelState) (now : Nat) (i : Fin 4)
    (hsp1 : ∀ s b, (setPrev s b).pending_single_move = s.pending_single_move)
    (hsp2 : ∀ s b, (setPrev s b).tilt_gesture_active = s.tilt_gesture_active)
    (hsp3 : ∀ s b, (setPrev s b).last_move_time = s.last_move_time)
    (h : st.tilt_gesture_active i = true ∨
         now - st.last_move_time i < move_cooldown_us) :
    ((accel_direction_step st active mag j setPrev now).pending_single_move =
        ((i : Nat) : Int) + 1 →
      st.pending_single_move = ((i : Nat) : Int) + 1) ∧
    (st.tilt_gesture_active i = true →
      (accel_direction_step st active mag j setPrev now).tilt_gesture_active i = true) ∧
    ((accel_direction_step st active mag j setPrev now).tilt_gesture_active i = true ∨
      now - (accel_direction_step st active mag j setPrev now).last_move_time i <
        move_cooldown_us) := by
  unfold accel_direction_step
  split
  · split
    · split
      · refine ⟨?_, ?_, ?_⟩
        · rw [hsp1]
          exact fun hp => hp
        · intro ha
          rw [hsp2]
          exact ha
        · rw [hsp2, hsp3]
          exact h
      · exact ⟨fun hp => hp, fun ha => ha, h⟩
    · split
      · exact handle_single_move_spec st j now i h
      · exact ⟨fun hp => hp, fun ha => ha, h⟩
  · split
    · refine ⟨?_, ?_, ?_⟩
      · rw [hsp1]
        exact fun hp => hp
      · intro ha
        rw [hsp2]
        exact ha
      · rw [hsp2, hsp3]
        exact h
    · exact ⟨fun hp => hp, fun ha => ha, h⟩

/-- C9 (amended): a mid-range gesture queues at most one single-step move
per direction. While direction `i`'s gesture flag is set — and it is only
cleared by a grace-period stay in the deadzone — or while `i`'s cooldown
has not elapsed, processing any further tilt sample cannot queue a new
single-step move for `i` (any pending value `i+1` afterwards was already
pending before); and as long as the sample is outside the deadzone the
gesture flag of `i` stays set, so a gesture that never returns to the
deadzone can never re-trigger, even after the cooldown elapses. -/
theorem C9_at_most_one_step_per_gesture (st : AccelState) (xin yin : Int)
    (now : Nat) (i : Fin 4)
    (h : st.tilt_gesture_active i = true ∨
         now - st.last_move_time i < move_cooldown_us) :
    ((process_accelerometer_data st xin yin now).pending_single_move =
        ((i : Nat) : Int) + 1 →
      st.pending_single_move = ((i : Nat) : Int) + 1) ∧
    (st.tilt_gesture_active i = true → ¬inDeadzoneSample xin yin →
      (process_accelerometer_data st xin yin now).tilt_gesture_active i = true) := by
  simp only [process_accelerometer_data]
  split
  · rename_i hdz
    refine ⟨?_, ?_⟩
    · split <;> split <;> exact fun hp => hp
    · intro ha hnd
      exact absurd hdz hnd
  · rename_i hdz
    have h0 : ({ st with in_deadzone := false } :
        AccelState).tilt_gesture_active i = true ∨
        now - ({ st with in_deadzone := false } :
          AccelState).last_move_time i < move_cooldown_us := h
    have hL := accel_direction_step_spec { st with in_deadzone := false }
      (decide (-xin < -deadzone)) (fabs (-xin)) DIR_LEFT
      (fun s b => { s with prev_left := b }) now i
      (fun _ _ => rfl) (fun _ _ => rfl) (fun _ _ => rfl) h0
    have hR := accel_direction_step_spec _
      (decide (-xin > deadzone)) (fabs (-xin)) DIR_RIGHT
      (fun s b => { s with prev_right := b }) now i
      (fun _ _ => rfl) (fun _ _ => rfl) (fun _ _ => rfl) hL.2.2
    have hU := accel_direction_step_spec _
      (decide (yin > deadzone)) (fabs yin) DIR_UP
      (fun s b => { s with prev_up := b }) now i
      (fun _ _ => rfl) (fun _ _ => rfl) (fun _ _ => rfl) hR.2.2
    have hD := accel_direction_step_spec _
      (decide (yin < -deadzone)) (fabs yin) DIR_DOWN
      (fun s b => { s with prev_down := b }) now i
      (fun _ _ => rfl) (fun _ _ => rfl) (fun _ _ => rfl) hU.2.2
    refine ⟨?_, ?_⟩
    · intro hp
      exact hL.1 (hR.1 (hU.1 (hD.1 hp)))
    · intro ha _
      exact hD.2.1 (hU.2.1 (hR.2.1 (hL.2.1 ha)))

/-- C9 witness: with the LEFT gesture flag already set and a continuing
off-deadzone sample, no new LEFT move can be queued and the flag stays
set. -/
theorem C9_at_most_one_step_per_gesture_witness :
    (((process_accelerometer_data
        { accelInit with tilt_gesture_active := fun j => j = 0 }
        30 0 500000).pending_single_move = ((0 : Nat) : Int) + 1 →
      ({ accelInit with tilt_gesture_active := fun j => j = 0 } :
        AccelState).pending_single_move = ((0 : Nat) : Int) + 1) ∧
     (({ accelInit with tilt_gesture_active := fun j => j = 0 } :
        AccelState).tilt_gesture_active 0 = true →
      ¬inDeadzoneSample 30 0 →
      (process_accelerometer_data
        { accelInit with tilt_gesture_active := fun j => j = 0 }
        30 0 500000).tilt_gesture_active 0 = true)) :=
  C9_at_most_one_step_per_gesture
    { accelInit with tilt_gesture_active := fun j => j = 0 } 30 0 500000 0
    (Or.inl (by decide))

/-- Grid and target coordinates of an object lie inside the 15×11 level. -/
def objInBounds (o : OBJECT) : Prop :=
  0 ≤ o.dx ∧ o.dx < LEVEL_WIDTH ∧ 0 ≤ o.dy ∧ o.dy < LEVEL_HEIGHT ∧
  0 ≤ o.target_dx ∧ o.target_dx < LEVEL_WIDTH ∧
  0 ≤ o.target_dy ∧ o.target_dy < LEVEL_HEIGHT

/-- Target coordinates of the pushable-block slot lie inside the level
(needed unconditionally: the block push activates slot 15 without writing
its target grid coordinates, which stay at their `memset` value 0). -/
def blockTargetsInBounds (o : OBJECT) : Prop :=
  0 ≤ o.target_dx ∧ o.target_dx < LEVEL_WIDTH ∧
  0 ≤ o.target_dy ∧ o.target_dy < LEVEL_HEIGHT

/-- The inductive bounds invariant on the object table: every active
object is in bounds, the player slot is active, and the block slot's
stored targets are in bounds. -/
def InvO (f : Fin 16 → OBJECT) : Prop :=
  (∀ i : Fin 16, (f i).l ≠ 0 → objInBounds (f i)) ∧
  (f 0).l ≠ 0 ∧ blockTargetsInBounds (f 15)

theorem updFun_apply (f : Fin 16 → OBJECT) (i : Fin 16) (o : OBJECT)
    (j : Fin 16) :
    (fun k => if k = i then o else f k) j = if j = i then o else f j := rfl

theorem updFunNat_apply (f : Fin 16 → OBJECT) (n : Nat) (o : OBJECT)
    (j : Fin 16) :
    (fun k : Fin 16 => if (k : Nat) = n then o else f k) j =
      if (j : Nat) = n then o else f j := rfl

theorem InvO_update (f : Fin 16 → OBJECT) (i : Fin 16) (o : OBJECT)
    (h : InvO f) (hb : o.l ≠ 0 → objInBounds o) (hp : i = 0 → o.l ≠ 0)
    (h15 : i = 15 → blockTargetsInBounds o) :
    InvO (fun j => if j = i then o else f j) := by
  obtain ⟨hib, hpl, hbt⟩ := h
  refine ⟨?_, ?_, ?_⟩
  · intro j hj
    rw [updFun_apply] at hj ⊢
    by_cases hji : j = i
    · rw [if_pos hji] at hj ⊢
      exact hb hj
    · rw [if_neg hji] at hj ⊢
      exact hib j hj
  · rw [updFun_apply]
    by_cases h0 : (0 : Fin 16) = i
    · rw [if_pos h0]
      exact hp h0.symm
    · rw [if_neg h0]
      exact hpl
  · rw [updFun_apply]
    by_cases hb15 : (15 : Fin 16) = i
    · rw [if_pos hb15]
      exact h15 hb15.symm
    · rw [if_neg hb15]
      exact hbt

theorem InvO_updateNat (f : Fin 16 → OBJECT) (n : Nat) (o : OBJECT)
    (h : InvO f) (hb : o.l ≠ 0 → objInBounds o) (hn0 : n ≠ 0) (hn15 : n ≠ 15) :
    InvO (fun j : Fin 16 => if (j : Nat) = n then o else f j) := by
  obtain ⟨hib, hpl, hbt⟩ := h
  refine ⟨?_, ?_, ?_⟩
  · intro j hj
    rw [updFunNat_apply] at hj ⊢
    by_cases hji : (j : Nat) = n
    · rw [if_pos hji] at hj ⊢
      exact hb hj
    · rw [if_neg hji] at hj ⊢
      exact hib j hj
  · rw [updFunNat_apply]
    rw [if_neg (by simpa using hn0.symm)]
    exact hpl
  · rw [updFunNat_apply]
    rw [if_neg (by simpa using hn15.symm)]
    exact hbt

/-- The animation update never touches coordinates or the active flag. -/
theorem update_character_animation_objInBounds (o : OBJECT) (m : Bool)
    (now : Nat) :
    (update_character_animation o m now).l = o.l ∧
    (objInBounds o → objInBounds (update_character_animation o m now)) := by
  by_cases ht : (100000 : Nat) ≤ now - o.last_anim_time <;>
    by_cases hm : m = true <;>
      simp [update_character_animation, objInBounds, ht, hm]

/-- The direction-selection phase keeps the target cell in range whenever
the player's own cell is in range (each branch moves one guarded step). -/
theorem select_direction_bounds (p : OBJECT) (keys : Keys) (accel_move : Int)
    (hp : 0 ≤ p.dx ∧ p.dx < LEVEL_WIDTH ∧ 0 ≤ p.dy ∧ p.dy < LEVEL_HEIGHT) :
    0 ≤ (select_direction p keys accel_move).1 ∧
    (select_direction p keys accel_move).1 < LEVEL_WIDTH ∧
    0 ≤ (select_direction p keys accel_move).2.1 ∧
    (select_direction p keys accel_move).2.1 < LEVEL_HEIGHT := by
  unfold select_direction UP DOWN LEFT RIGHT
  unfold LEVEL_WIDTH LEVEL_HEIGHT at *
  repeat' split
  all_goals simp_all
  all_goals repeat' split
  all_goals try simp_all
  all_goals omega

/-- A successful `search_rock` returns an active rock object located at the
searched cell. -/
theorem search_rock_spec (s : GameState) (xr yr : Int) (r : Fin 16)
    (h : search_rock s xr yr = some r) :
    (s.objects r).l ≠ 0 ∧ (s.objects r).dx = xr ∧ (s.objects r).dy = yr := by
  unfold search_rock at h
  have := List.find?_some h
  simp only [Bool.and_eq_true, bne_iff_ne, beq_iff_eq, ne_eq] at this
  exact ⟨this.1.1, this.1.2, this.2⟩

theorem InvO_setObj (s : GameState) (i : Fin 16) (o : OBJECT)
    (h : InvO s.objects) (hb : o.l ≠ 0 → objInBounds o) (hp : i = 0 → o.l ≠ 0)
    (h15 : i = 15 → blockTargetsInBounds o) :
    InvO (setObj s i o).objects :=
  InvO_update s.objects i o h hb hp h15

theorem InvO_teleport (s : GameState) (h : InvO s.objects) :
    InvO (teleport s).objects := by
  simp only [teleport]
  split
  · rename_i c heq
    refine InvO_setObj s 0 _ h ?_ (fun _ => h.2.1) (fun hx => absurd hx (by decide))
    intro _
    have hpb := h.1 0 h.2.1
    have hcl := c.isLt
    unfold objInBounds at hpb ⊢
    unfold LEVEL_WIDTH LEVEL_HEIGHT at *
    refine ⟨?_, ?_, ?_, ?_, ?_, ?_, ?_, ?_⟩ <;> simp <;> omega
  · exact h

theorem InvO_turn_screen (s : GameState) (h : InvO s.objects) :
    InvO (turn_screen s).objects := by
  obtain ⟨hib, hpl, hbt⟩ := h
  refine ⟨?_, ?_, ?_⟩
  · intro i hi
    rw [turn_screen_objects] at hi ⊢
    by_cases hl : (s.objects i).l ≠ 0
    · rw [if_pos hl] at hi ⊢
      have hbi := hib i hl
      unfold objInBounds at hbi ⊢
      unfold LEVEL_WIDTH LEVEL_HEIGHT at *
      refine ⟨?_, ?_, ?_, ?_, ?_, ?_, ?_, ?_⟩ <;> simp <;> omega
    · rw [if_neg hl] at hi ⊢
      exact hib i hi
  · rw [turn_screen_objects]
    by_cases hl : (s.objects 0).l ≠ 0
    · rw [if_pos hl]
      simpa using hpl
    · rw [if_neg hl]
      exact hpl
  · rw [turn_screen_objects]
    by_cases hl : (s.objects 15).l ≠ 0
    · rw [if_pos hl]
      unfold blockTargetsInBounds at hbt ⊢
      simpa using hbt
    · rw [if_neg hl]
      exact hbt

theorem InvO_get_item (s : GameState) (h : InvO s.objects) :
    InvO (get_item s).objects := by
  simp only [get_item]
  split_ifs <;>
    first
      | exact h
      | exact InvO_teleport _ h
      | exact InvO_turn_screen _ h

theorem continuation_target_bounds (q : OBJECT) (keys : Keys) (ndx ndy : Int)
    (hq : objInBounds q) (h : continuation_target q keys = some (ndx, ndy)) :
    0 ≤ ndx ∧ ndx < LEVEL_WIDTH ∧ 0 ≤ ndy ∧ ndy < LEVEL_HEIGHT := by
  unfold continuation_target at h
  unfold objInBounds at hq
  unfold LEVEL_WIDTH LEVEL_HEIGHT at *
  split_ifs at h <;> simp_all <;> omega

theorem InvO_update_player_position (s : GameState) (keys : Keys) (now : Nat)
    (h : InvO s.objects) : InvO (update_player_position s keys now).objects := by
  simp only [update_player_position]
  split
  · refine InvO_setObj s 0 _ h ?_ ?_ (fun hx => absurd hx (by decide))
    · intro _
      exact (update_character_animation_objInBounds _ _ _).2 (h.1 0 h.2.1)
    · intro _
      rw [(update_character_animation_objInBounds _ _ _).1]
      exact h.2.1
  · split
    · have hp1 : objInBounds { s.objects 0 with
          x := (s.objects 0).target_x, y := (s.objects 0).target_y,
          dx := (s.objects 0).target_dx, dy := (s.objects 0).target_dy } := by
        have hpb := h.1 0 h.2.1
        unfold objInBounds at hpb ⊢
        refine ⟨?_, ?_, ?_, ?_, ?_, ?_, ?_, ?_⟩ <;> simp <;> omega
      have h1 : InvO (get_item (setObj s 0 { s.objects 0 with
          x := (s.objects 0).target_x, y := (s.objects 0).target_y,
          dx := (s.objects 0).target_dx, dy := (s.objects 0).target_dy })).objects := by
        apply InvO_get_item
        refine InvO_setObj s 0 _ h (fun _ => hp1) ?_ (fun hx => absurd hx (by decide))
        intro _
        simpa using h.2.1
      generalize hS : get_item (setObj s 0 { s.objects 0 with
          x := (s.objects 0).target_x, y := (s.objects 0).target_y,
          dx := (s.objects 0).target_dx, dy := (s.objects 0).target_dy }) = S at h1 ⊢
      have hq := h1.1 0 h1.2.1
      rcases hC : continuation_target (S.objects 0) keys with _ | ⟨ndx, ndy⟩
      · simp only [hC]
        refine InvO_setObj S 0 _ h1 ?_ ?_ (fun hx => absurd hx (by decide))
        · intro _
          unfold objInBounds at hq ⊢
          refine ⟨?_, ?_, ?_, ?_, ?_, ?_, ?_, ?_⟩ <;> simp <;> omega
        · intro _
          simpa using h1.2.1
      · simp only [hC]
        have hnd := continuation_target_bounds (S.objects 0) keys ndx ndy hq hC
        split
        · refine InvO_setObj S 0 _ h1 ?_ ?_ (fun hx => absurd hx (by decide))
          · intro _
            unfold objInBounds at hq ⊢
            unfold LEVEL_WIDTH LEVEL_HEIGHT at *
            refine ⟨?_, ?_, ?_, ?_, ?_, ?_, ?_, ?_⟩ <;> simp <;> omega
          · intro _
            simpa using h1.2.1
        · refine InvO_setObj S 0 _ h1 ?_ ?_ (fun hx => absurd hx (by decide))
          · intro _
            unfold objInBounds at hq ⊢
            refine ⟨?_, ?_, ?_, ?_, ?_, ?_, ?_, ?_⟩ <;> simp <;> omega
          · intro _
            simpa using h1.2.1
    · refine InvO_setObj s 0 _ h ?_ ?_ (fun hx => absurd hx (by decide))
      · intro _
        refine (update_character_animation_objInBounds _ _ _).2 ?_
        have hpb := h.1 0 h.2.1
        unfold objInBounds at hpb ⊢
        refine ⟨?_, ?_, ?_, ?_, ?_, ?_, ?_, ?_⟩ <;> simp <;> omega
      · intro _
        rw [(update_character_animation_objInBounds _ _ _).1]
        exact h.2.1

theorem InvO_block_push (s : GameState) (tdx tdy dir : Int) (now : Nat)
    (s1 : GameState) (h : InvO s.objects)
    (htx1 : 0 ≤ tdx) (htx2 : tdx < LEVEL_WIDTH)
    (hty1 : 0 ≤ tdy) (hty2 : tdy < LEVEL_HEIGHT)
    (hres : block_push s tdx tdy dir now = some s1) :
    InvO s1.objects := by
  have hbt := h.2.2
  unfold blockTargetsInBounds at hbt
  unfold LEVEL_WIDTH LEVEL_HEIGHT at *
  simp only [block_push, LEFT, RIGHT, UP, DOWN, LEVEL_WIDTH, LEVEL_HEIGHT] at hres
  split_ifs at hres <;> simp_all <;>
    (first
      | (obtain ⟨-, hres2⟩ := hres
         subst hres2)
      | skip) <;>
    (refine InvO_setObj _ 15 _ h ?_ (fun hx => absurd hx (by decide)) ?_ <;>
     intro _ <;>
     first
       | (unfold objInBounds
          unfold LEVEL_WIDTH LEVEL_HEIGHT
          refine ⟨?_, ?_, ?_, ?_, ?_, ?_, ?_, ?_⟩ <;> simp <;> omega)
       | (unfold blockTargetsInBounds
          unfold LEVEL_WIDTH LEVEL_HEIGHT
          refine ⟨?_, ?_, ?_, ?_⟩ <;> simp <;> omega))

theorem InvO_rock_push (s : GameState) (tdx tdy dir : Int) (now : Nat)
    (s1 : GameState) (h : InvO s.objects)
    (hres : rock_push s tdx tdy dir now = some s1) :
    InvO s1.objects := by
  simp only [rock_push] at hres
  rcases hsr : search_rock s tdx tdy with _ | r
  · rw [hsr] at hres
    simp at hres
  · rw [hsr] at hres
    obtain ⟨hrl, hrdx, hrdy⟩ := search_rock_spec s tdx tdy r hsr
    have hrb := h.1 r hrl
    unfold objInBounds at hrb
    unfold LEVEL_WIDTH LEVEL_HEIGHT at *
    simp only [LEFT, RIGHT, UP, DOWN] at hres
    split_ifs at hres <;> simp_all <;>
      (first
        | (obtain ⟨-, -, hres2⟩ := hres
           subst hres2)
        | (obtain ⟨-, hres2⟩ := hres
           subst hres2)
        | skip) <;>
      (refine InvO_setObj _ r _ h ?_ ?_ ?_ <;> intro _ <;>
       first
         | (unfold objInBounds
            unfold LEVEL_WIDTH LEVEL_HEIGHT
            refine ⟨?_, ?_, ?_, ?_, ?_, ?_, ?_, ?_⟩ <;> simp <;> omega)
         | (simpa using hrl)
         | (unfold blockTargetsInBounds
            unfold LEVEL_WIDTH LEVEL_HEIGHT
            refine ⟨?_, ?_, ?_, ?_⟩ <;> simp <;> omega))

theorem InvO_startPlayerMove (s : GameState) (tdx tdy dir ssy : Int) (now : Nat)
    (h : InvO s.objects) (htx1 : 0 ≤ tdx) (htx2 : tdx < LEVEL_WIDTH)
    (hty1 : 0 ≤ tdy) (hty2 : tdy < LEVEL_HEIGHT) :
    InvO (startPlayerMove s tdx tdy dir ssy now).objects := by
  unfold startPlayerMove
  refine InvO_setObj s 0 _ h ?_ ?_ (fun hx => absurd hx (by decide))
  · intro _
    have hpb := h.1 0 h.2.1
    unfold objInBounds at hpb ⊢
    unfold LEVEL_WIDTH LEVEL_HEIGHT at *
    refine ⟨?_, ?_, ?_, ?_, ?_, ?_, ?_, ?_⟩ <;> simp <;> omega
  · intro _
    simpa using h.2.1

theorem InvO_movePlayerCore (s : GameState) (keys : Keys) (accel_move : Int)
    (now : Nat) (h : InvO s.objects) :
    InvO (movePlayerCore s keys accel_move now).objects := by
  have hpb := h.1 0 h.2.1
  have hsel := select_direction_bounds (s.objects 0) keys accel_move
    ⟨hpb.1, hpb.2.1, hpb.2.2.1, hpb.2.2.2.1⟩
  simp only [movePlayerCore]
  split
  · exact h
  · split
    · rcases hbp : block_push s (select_direction (s.objects 0) keys accel_move).1
          (select_direction (s.objects 0) keys accel_move).2.1
          (select_direction (s.objects 0) keys accel_move).2.2.1 now with _ | s1
      · simp only [hbp]
        exact h
      · simp only [hbp]
        exact InvO_startPlayerMove _ _ _ _ _ _
          (InvO_block_push s _ _ _ now s1 h hsel.1 hsel.2.1 hsel.2.2.1 hsel.2.2.2 hbp)
          hsel.1 hsel.2.1 hsel.2.2.1 hsel.2.2.2
    · split
      · rcases hrp : rock_push s (select_direction (s.objects 0) keys accel_move).1
            (select_direction (s.objects 0) keys accel_move).2.1
            (select_direction (s.objects 0) keys accel_move).2.2.1 now with _ | s1
        · simp only [hrp]
          exact h
        · simp only [hrp]
          exact InvO_startPlayerMove _ _ _ _ _ _
            (InvO_rock_push s _ _ _ now s1 h hrp)
            hsel.1 hsel.2.1 hsel.2.2.1 hsel.2.2.2
      · split
        · exact h
        · exact InvO_startPlayerMove _ _ _ _ _ _ h
            hsel.1 hsel.2.1 hsel.2.2.1 hsel.2.2.2

theorem InvO_move_player (s : GameState) (keys : Keys) (accel_move : Int)
    (now : Nat) (h : InvO s.objects) :
    InvO (move_player s keys accel_move now).objects := by
  have h0 := InvO_update_player_position s keys now h
  simp only [move_player]
  repeat' split
  all_goals
    first
      | exact h0
      | (apply InvO_movePlayerCore
         exact h0)

theorem InvO_start_rock_fall (s : GameState) (r : Fin 16) (now : Nat)
    (h : InvO s.objects) (hl : (s.objects r).l ≠ 0)
    (hdy : (s.objects r).dy < LEVEL_HEIGHT - 1) :
    InvO (start_rock_fall s r now).objects := by
  have hb := h.1 r hl
  simp only [start_rock_fall]
  refine InvO_setObj _ r _ h ?_ ?_ ?_
  · intro _
    unfold objInBounds at hb ⊢
    unfold LEVEL_WIDTH LEVEL_HEIGHT at *
    refine ⟨?_, ?_, ?_, ?_, ?_, ?_, ?_, ?_⟩ <;> simp <;> omega
  · intro _
    norm_num
  · intro _
    unfold blockTargetsInBounds
    unfold objInBounds at hb
    unfold LEVEL_WIDTH LEVEL_HEIGHT at *
    refine ⟨?_, ?_, ?_, ?_⟩ <;> simp <;> omega

theorem start_rock_fall_l (s : GameState) (r : Fin 16) (now : Nat) :
    ((start_rock_fall s r now).objects r).l = 2 := by
  simp [start_rock_fall, setObj]

theorem InvO_rock_arrive (s : GameState) (r : Fin 16)
    (h : InvO s.objects) (hl : (s.objects r).l ≠ 0) :
    InvO (rock_arrive s r).objects := by
  have hb := h.1 r hl
  simp only [rock_arrive]
  refine InvO_setObj _ r _ h ?_ ?_ ?_
  · intro _
    unfold objInBounds at hb ⊢
    refine ⟨?_, ?_, ?_, ?_, ?_, ?_, ?_, ?_⟩ <;> simp <;> omega
  · intro _
    norm_num
  · intro _
    unfold blockTargetsInBounds
    unfold objInBounds at hb
    refine ⟨?_, ?_, ?_, ?_⟩ <;> simp <;> omega

theorem rock_arrive_l (s : GameState) (r : Fin 16) :
    ((rock_arrive s r).objects r).l = 1 := by
  simp [rock_arrive, setObj]

theorem InvO_move_rock_motion (s : GameState) (r : Fin 16) (now : Nat)
    (h : InvO s.objects) (hl : (s.objects r).l ≠ 0) :
    InvO (move_rock_motion s r now).objects := by
  have hb := h.1 r hl
  simp only [move_rock_motion]
  split
  · split
    · have hB := InvO_rock_arrive s r h hl
      have hBl : ((rock_arrive s r).objects r).l ≠ 0 := by
        rw [rock_arrive_l]
        norm_num
      split
      · split
        · split
          · rename_i hdy hd hnpb
            exact InvO_start_rock_fall _ r now hB hBl hdy
          · exact hB
        · exact hB
      · exact hB
    · refine InvO_setObj s r _ h ?_ ?_ ?_
      · intro _
        unfold objInBounds at hb ⊢
        refine ⟨?_, ?_, ?_, ?_, ?_, ?_, ?_, ?_⟩ <;> simp <;> omega
      · intro _
        simpa using hl
      · intro _
        unfold blockTargetsInBounds
        unfold objInBounds at hb
        refine ⟨?_, ?_, ?_, ?_⟩ <;> simp <;> omega
  · refine InvO_setObj s r _ h ?_ ?_ ?_
    · intro _
      unfold objInBounds at hb ⊢
      refine ⟨?_, ?_, ?_, ?_, ?_, ?_, ?_, ?_⟩ <;> simp <;> omega
    · intro _
      norm_num
    · intro _
      unfold blockTargetsInBounds
      unfold objInBounds at hb
      refine ⟨?_, ?_, ?_, ?_⟩ <;> simp <;> omega

theorem InvO_move_rock_one (s : GameState) (r : Fin 16) (now : Nat)
    (h : InvO s.objects) : InvO (move_rock_one s r now).objects := by
  simp only [move_rock_one]
  split
  · rename_i hl
    split
    · split
      · split
        · rename_i hcond hd hnpb
          refine InvO_move_rock_motion _ r now
            (InvO_start_rock_fall s r now h hl hcond.2) ?_
          rw [start_rock_fall_l]
          norm_num
        · exact InvO_move_rock_motion s r now h hl
      · exact InvO_move_rock_motion s r now h hl
    · exact InvO_move_rock_motion s r now h hl
  · exact h

theorem InvO_move_rocks (s : GameState) (now : Nat)
    (h : InvO s.objects) : InvO (move_rocks s now).objects := by
  simp only [move_rocks, rockSlots, List.foldl]
  iterate 10 apply InvO_move_rock_one
  exact h

theorem InvO_move_block (s : GameState) (now : Nat)
    (h : InvO s.objects) : InvO (move_block s now).objects := by
  simp only [move_block]
  split
  · rename_i hc
    have hb := h.1 15 hc.1
    split
    · refine InvO_setObj s 15 _ h ?_ (fun hx => absurd hx (by decide)) ?_
      · intro hx
        exact absurd rfl hx
      · intro _
        unfold blockTargetsInBounds
        unfold objInBounds at hb
        refine ⟨?_, ?_, ?_, ?_⟩ <;> simp <;> omega
    · refine InvO_setObj s 15 _ h ?_ (fun hx => absurd hx (by decide)) ?_
      · intro _
        unfold objInBounds at hb ⊢
        refine ⟨?_, ?_, ?_, ?_, ?_, ?_, ?_, ?_⟩ <;> simp <;> omega
      · intro _
        unfold blockTargetsInBounds
        unfold objInBounds at hb
        refine ⟨?_, ?_, ?_, ?_⟩ <;> simp <;> omega
  · exact h

theorem initScanStep_P (g : Grid) (f : Fin 16 → OBJECT) (cur_rock cur_enemy : Nat)
    (c : Fin 165) (h1 : InvO f) (h2 : 5 ≤ cur_rock) (h3 : 1 ≤ cur_enemy) :
    InvO (initScanStep g (f, cur_rock, cur_enemy) c).1 ∧
    5 ≤ (initScanStep g (f, cur_rock, cur_enemy) c).2.1 ∧
    1 ≤ (initScanStep g (f, cur_rock, cur_enemy) c).2.2 := by
  have hcl := c.isLt
  have hrockB : ∀ o : OBJECT, o.dx = ((c : Nat) : Int) % 15 →
      o.dy = ((c : Nat) : Int) / 15 →
      (o.target_dx = ((c : Nat) : Int) % 15 ∨ o.target_dx = 0) →
      (o.target_dy = ((c : Nat) : Int) / 15 ∨ o.target_dy = 0) →
      objInBounds o := by
    intro o e1 e2 e3 e4
    unfold objInBounds
    unfold LEVEL_WIDTH LEVEL_HEIGHT
    rcases e3 with e3 | e3 <;> rcases e4 with e4 | e4 <;>
      rw [e1, e2, e3, e4] <;> refine ⟨?_, ?_, ?_, ?_, ?_, ?_, ?_, ?_⟩ <;> omega
  simp only [initScanStep]
  split
  · rename_i hR
    have hr15 : cur_rock < 15 := hR.2
    split
    · rename_i hE
      have hE5 : cur_enemy < 5 := hE.2
      refine ⟨?_, ?_, ?_⟩
      · refine InvO_updateNat _ cur_enemy _ ?_ ?_
          (by omega) (by omega)
        · refine InvO_updateNat _ cur_rock _ h1 ?_ (by omega) (by omega)
          intro _
          exact hrockB _ rfl rfl (Or.inl rfl) (Or.inl rfl)
        · intro _
          exact hrockB _ rfl rfl (Or.inr rfl) (Or.inr rfl)
      · show 5 ≤ cur_rock + 1
        omega
      · show 1 ≤ cur_enemy + 1
        omega
    · refine ⟨?_, ?_, ?_⟩
      · exact InvO_updateNat _ cur_rock _ h1
          (fun _ => hrockB _ rfl rfl (Or.inl rfl) (Or.inl rfl)) (by omega) (by omega)
      · show 5 ≤ cur_rock + 1
        omega
      · show 1 ≤ cur_enemy
        omega
  · rename_i hR
    split
    · rename_i hE
      have hE5 : cur_enemy < 5 := hE.2
      refine ⟨?_, ?_, ?_⟩
      · refine InvO_updateNat _ cur_enemy _ h1 ?_ (by omega) (by omega)
        intro _
        exact hrockB _ rfl rfl (Or.inr rfl) (Or.inr rfl)
      · show 5 ≤ cur_rock
        omega
      · show 1 ≤ cur_enemy + 1
        omega
    · exact ⟨h1, h2, h3⟩

theorem InvO_initScan (g : Grid) (f : Fin 16 → OBJECT) (h : InvO f) :
    InvO (initScan g f) := by
  unfold initScan
  have main : ∀ (l : List (Fin 165)) (acc : (Fin 16 → OBJECT) × Nat × Nat),
      InvO acc.1 → 5 ≤ acc.2.1 → 1 ≤ acc.2.2 →
      InvO ((l.foldl (initScanStep g) acc).1) ∧
      5 ≤ ((l.foldl (initScanStep g) acc).2.1) ∧
      1 ≤ ((l.foldl (initScanStep g) acc).2.2) := by
    intro l
    induction l with
    | nil => exact fun acc h1 h2 h3 => ⟨h1, h2, h3⟩
    | cons a t ih =>
        intro acc h1 h2 h3
        simp only [List.foldl]
        obtain ⟨f0, cr, ce⟩ := acc
        have hstep := initScanStep_P g f0 cr ce a h1 h2 h3
        exact ih _ hstep.1 hstep.2.1 hstep.2.2
  exact (main (List.finRange 165) (f, 5, 1) h (Nat.le_refl 5) (Nat.le_refl 1)).1

theorem InvO_init_objects (s : GameState) (now : Nat)
    (h : (find32 s.level_data).isSome) :
    InvO (init_objects s now).objects := by
  simp only [init_objects]
  rcases hf : find32 s.level_data with _ | c
  · rw [hf] at h
    simp at h
  · simp only [hf]
    have hcl := c.isLt
    refine InvO_setObj _ 15 _ ?_ ?_ (fun hx => absurd hx (by decide)) ?_
    · show InvO (initScan (gridSet s.level_data ((c : Nat) : Int) 0)
        (fun j : Fin 16 => if j = 0 then _ else (fun _ : Fin 16 => zeroObject) j))
      apply InvO_initScan
      refine ⟨?_, ?_, ?_⟩
      · intro j hj
        dsimp only at hj ⊢
        by_cases hj0 : j = 0
        · rw [if_pos hj0] at hj ⊢
          unfold objInBounds
          unfold LEVEL_WIDTH LEVEL_HEIGHT
          refine ⟨?_, ?_, ?_, ?_, ?_, ?_, ?_, ?_⟩ <;> simp <;> omega
        · rw [if_neg hj0] at hj
          exact absurd rfl hj
      · dsimp only
        rw [if_pos rfl]
        norm_num
      · dsimp only
        rw [if_neg (by decide)]
        refine ⟨?_, ?_, ?_, ?_⟩ <;> norm_num [zeroObject, LEVEL_WIDTH, LEVEL_HEIGHT]
    · intro hx
      exact absurd rfl hx
    · intro _
      refine ⟨?_, ?_, ?_, ?_⟩ <;> norm_num [zeroObject, LEVEL_WIDTH, LEVEL_HEIGHT]

/-- States reachable from a validly initialized level (a level grid that
contains the player-start marker 32) by any interleaving of the per-tick
step functions `move_player`, `move_rocks` and `move_block`, with arbitrary
inputs and times. -/
inductive Reachable : GameState → Prop
  | init (s : GameState) (now : Nat) (h : (find32 s.level_data).isSome) :
      Reachable (init_objects s now)
  | player (s : GameState) (keys : Keys) (accel_move : Int) (now : Nat) :
      Reachable s → Reachable (move_player s keys accel_move now)
  | rocks (s : GameState) (now : Nat) : Reachable s → Reachable (move_rocks s now)
  | block (s : GameState) (now : Nat) : Reachable s → Reachable (move_block s now)

/-- C8: in every state reachable from a validly initialized level by the
per-tick step functions (`move_player`, `move_rocks`, `move_block`), every
active entity's grid coordinate and target grid coordinate satisfy
`0 ≤ x < 15` and `0 ≤ y < 11`, so every `level_data` access computed from
them is in range. -/
theorem C8_reachable_in_bounds (s : GameState) (h : Reachable s) :
    ∀ i : Fin 16, (s.objects i).l ≠ 0 →
      0 ≤ (s.objects i).dx ∧ (s.objects i).dx < LEVEL_WIDTH ∧
      0 ≤ (s.objects i).dy ∧ (s.objects i).dy < LEVEL_HEIGHT ∧
      0 ≤ (s.objects i).target_dx ∧ (s.objects i).target_dx < LEVEL_WIDTH ∧
      0 ≤ (s.objects i).target_dy ∧ (s.objects i).target_dy < LEVEL_HEIGHT := by
  have hI : InvO s.objects := by
    induction h with
    | init s now hs => exact InvO_init_objects s now hs
    | player s keys accel now hr ih => exact InvO_move_player s keys accel now ih
    | rocks s now hr ih => exact InvO_move_rocks s now ih
    | block s now hr ih => exact InvO_move_block s now ih
  exact hI.1

/-- A concrete loaded level: start marker 32 at (7,5), a rock at (3,2) and
a fruit at (4,2). -/
def fixLoadedLevel : GameState where
  level_data := fun j =>
    if (j : Nat) = 7 + 5 * 15 then 32
    else if (j : Nat) = 3 + 2 * 15 then 3
    else if (j : Nat) = 4 + 2 * 15 then 4 else 0
  objects := fun _ => zeroObject
  av_time := 100
  score := 0
  level := 1
  lives := 3
  fruit := 1
  dead := 0
  freeze_enemy := 0
  level_change_requested := 0
  f2_pressed := false
  f3_pressed := false

/-- C8 witness: the freshly initialized concrete level is reachable, its
player entity (slot 0) is active, and that entity is in bounds. -/
theorem C8_reachable_in_bounds_witness :
    ((init_objects fixLoadedLevel 0).objects 0).l ≠ 0 ∧
    (0 ≤ ((init_objects fixLoadedLevel 0).objects 0).dx ∧
      ((init_objects fixLoadedLevel 0).objects 0).dx < LEVEL_WIDTH ∧
      0 ≤ ((init_objects fixLoadedLevel 0).objects 0).dy ∧
      ((init_objects fixLoadedLevel 0).objects 0).dy < LEVEL_HEIGHT ∧
      0 ≤ ((init_objects fixLoadedLevel 0).objects 0).target_dx ∧
      ((init_objects fixLoadedLevel 0).objects 0).target_dx < LEVEL_WIDTH ∧
      0 ≤ ((init_objects fixLoadedLevel 0).objects 0).target_dy ∧
      ((init_objects fixLoadedLevel 0).objects 0).target_dy < LEVEL_HEIGHT) :=
  ⟨by decide,
    C8_reachable_in_bounds (init_objects fixLoadedLevel 0)
      (Reachable.init fixLoadedLevel 0 (by decide)) 0 (by decide)⟩
